import Mathlib

/-!
# The API boundary layer of the ray-tracing kernels (`kernels/common/rtcore.cpp`)

A shallow embedding of the boundary functions of `rtcore.cpp` and proofs of
properties of the error cell, the commit entry points, the transform decoding
and the memory monitor.

Conventions of the embedding

* C++ exceptions are values of `Fault`; a function body that can throw returns
  `Except Fault α` together with the state it leaves behind (a throw does not
  roll the state back).
* `unsigned` values are natural numbers; the `unsigned` value `-1` is
  `4294967295`.
* A nullable pointer is an `Option`; the `float` array behind `const float*`
  is a function from index to element, and the element type is abstract
  (the code only copies elements).
* The scene class, the geometry classes and the build are not part of this
  file: they enter as an `Engine` record of functions, and every call the
  boundary layer makes into them is appended to a call log.
* Preprocessor switches are the fields of `Build`. The tracing, statistics
  and ray-stream-logger switches (`RTCORE_TRACE`, `STAT`,
  `RTCORE_ENABLE_RAYSTREAM_LOGGER`) are taken as compiled out.
-/

namespace embree

/-! ## Error codes, faults, global state -/

/-- The error codes, as enumerated by the `switch` of `process_error`. -/
inductive RTCError where
  | RTC_NO_ERROR
  | RTC_UNKNOWN_ERROR
  | RTC_INVALID_ARGUMENT
  | RTC_INVALID_OPERATION
  | RTC_OUT_OF_MEMORY
  | RTC_UNSUPPORTED_CPU
  deriving DecidableEq, Repr

open RTCError

/-- Modelled from the spec: the faults that can be raised inside a boundary
call. `throw_RTCError(code, msg)` (a macro of `device.h`, which is not among
the sources) raises a library fault that carries its own code and message;
every other fault is an unanticipated one, with the message it may carry. -/
inductive Fault where
  | rtcore_error (error : RTCError) (what : String)
  | unanticipated (what : Option String)
  deriving DecidableEq, Repr

/-- Modelled from the spec: `throw_RTCError(error, str)` of `device.h`. -/
def throw_RTCError {α : Type} (error : RTCError) (str : String) : Except Fault α :=
  Except.error (Fault.rtcore_error error str)

/-- The preprocessor switches that `rtcore.cpp` tests. -/
structure Build where
  /-- preprocessor symbol `__MIC__` -/
  MIC : Bool
  /-- preprocessor symbol `DEBUG` -/
  DEBUG : Bool
  /-- preprocessor symbol `TASKING_LOCKSTEP` -/
  TASKING_LOCKSTEP : Bool
  /-- preprocessor symbol `TASKING_TBB_INTERNAL` -/
  TASKING_TBB_INTERNAL : Bool
  /-- preprocessor symbol `__TARGET_SIMD4__` -/
  TARGET_SIMD4 : Bool
  /-- preprocessor symbol `__TARGET_SIMD8__` -/
  TARGET_SIMD8 : Bool
  /-- preprocessor symbol `__TARGET_SIMD16__` -/
  TARGET_SIMD16 : Bool
  deriving DecidableEq, Repr

/-- The part of `State::instance()` and of the thread-local storage that
`rtcore.cpp` touches. Threads are numbered; `error t` is the cell that
`State::error()` denotes on thread `t`. The two lists record what has been
written to `std::cerr` and the calls made to the user error callback. -/
structure State where
  /-- the value of `State::instance()->verbosity(1)` -/
  verbosity1 : Bool
  /-- whether `State::instance()->g_error_function` is a non-null pointer -/
  g_error_function : Bool
  /-- the pointer `State::instance()->g_memory_monitor_function`, `none` for null -/
  g_memory_monitor_function : Option (Int → Bool → Bool)
  /-- the thread-local cell `*State::error()` of each thread -/
  error : Nat → RTCError
  /-- lines written to `std::cerr`, oldest first -/
  cerr : List String
  /-- calls `g_error_function(error, str)`, oldest first -/
  error_function_calls : List (RTCError × Option String)

/-- The text `process_error` prints for a code (lines 47-55). The `default`
branch of the source is not reachable for the six enumerators. -/
def errorText : RTCError → String
  | RTC_NO_ERROR => "Embree: No error"
  | RTC_UNKNOWN_ERROR => "Embree: Unknown error"
  | RTC_INVALID_ARGUMENT => "Embree: Invalid argument"
  | RTC_INVALID_OPERATION => "Embree: Invalid operation"
  | RTC_OUT_OF_MEMORY => "Embree: Out of memory"
  | RTC_UNSUPPORTED_CPU => "Embree: Unsupported CPU"

/-- Write `v` to the error cell of thread `t`. -/
def setCell (cells : Nat → RTCError) (t : Nat) (v : RTCError) : Nat → RTCError :=
  fun u => if u = t then v else cells u

/-- `process_error(error, str)` called on thread `tid` (lines 42-68): print
when verbose, call the user callback when one is registered, then write the
code into the thread's cell only if the cell holds `RTC_NO_ERROR`. -/
def process_error (tid : Nat) (error : RTCError) (str : Option String) (st : State) : State :=
  let st1 : State :=
    if st.verbosity1 then
      { st with cerr := st.cerr ++
          [errorText error ++ (match str with
                               | some s => ", (" ++ s ++ ")"
                               | none => "")] }
    else st
  let st2 : State :=
    if st1.g_error_function then
      { st1 with error_function_calls := st1.error_function_calls ++ [(error, str)] }
    else st1
  if st2.error tid = RTC_NO_ERROR then
    { st2 with error := setCell st2.error tid error }
  else st2

/-- `rtcGetError()` called on thread `tid` (lines 125-132): return the
thread's cell and reset it to `RTC_NO_ERROR`. -/
def rtcGetError (tid : Nat) (st : State) : RTCError × State :=
  let error := st.error tid
  (error, { st with error := setCell st.error tid RTC_NO_ERROR })

/-- `rtcSetErrorFunction(func)` (lines 134-140); `func` is given by whether it
is non-null. -/
def rtcSetErrorFunction (func : Bool) (st : State) : State :=
  { st with g_error_function := func }

/-- `rtcSetMemoryMonitorFunction(func)` (lines 142-148). -/
def rtcSetMemoryMonitorFunction (func : Option (Int → Bool → Bool)) (st : State) : State :=
  { st with g_memory_monitor_function := func }

/-! ## The memory monitor -/

/-- `memoryMonitor(bytes, post)` (lines 29-40). The callback is consulted only
for a non-zero `bytes`; its refusal raises `RTC_OUT_OF_MEMORY` only when
neither tasking switch is defined and `bytes` is positive. -/
def memoryMonitor (cfg : Build) (st : State) (bytes : Int) (post : Bool) : Except Fault Unit :=
  match st.g_memory_monitor_function with
  | some f =>
    if bytes ≠ 0 then
      if !f bytes post then
        if !cfg.TASKING_LOCKSTEP && !cfg.TASKING_TBB_INTERNAL then
          if bytes > 0 then
            throw_RTCError RTC_OUT_OF_MEMORY "memory monitor forced termination"
          else Except.ok ()
        else Except.ok ()
      else Except.ok ()
    else Except.ok ()
  | none => Except.ok ()

/-! ## Vectors and affine transforms -/

/-- The three components `Vec3fa(x, y, z)` is built from. -/
structure Vec3fa (F : Type) where
  x : F
  y : F
  z : F

/-- The value `AffineSpace3fa(vx, vy, vz, p)` is built from: three basis
vectors (the columns of the linear part) and the translation. -/
structure AffineSpace3fa (F : Type) where
  vx : Vec3fa F
  vy : Vec3fa F
  vz : Vec3fa F
  p : Vec3fa F

/-- The values of `RTCMatrixType` that the `switch` of `rtcSetTransform`
tells apart: the three layouts, and any other value of the enumeration type
(which takes the `default` branch). -/
inductive RTCMatrixType where
  | RTC_MATRIX_ROW_MAJOR
  | RTC_MATRIX_COLUMN_MAJOR
  | RTC_MATRIX_COLUMN_MAJOR_ALIGNED16
  | unrecognised (raw : Nat)
  deriving DecidableEq, Repr

open RTCMatrixType

/-! ## The engine behind the boundary, and the world the boundary acts on -/

/-- A call made by the boundary layer into the scene object. -/
inductive EngineCall (F : Type) where
  /-- the call `scene->build(threadID, numThreads)`, with the value the
  MXCSR register of the calling thread has while the build runs -/
  | build (threadID numThreads mxcsr : Nat)
  /-- the call `scene->get_locked(geomID)->setTransform(transform)` -/
  | setTransform (geomID : Nat) (transform : AffineSpace3fa F)
  /-- the call `scene->newTriangleMesh(flags, numTriangles, numVertices, numTimeSteps)` -/
  | newTriangleMesh (flags numTriangles numVertices numTimeSteps : Nat)
  /-- the call `scene->get_locked(geomID)->map(type)` -/
  | map (geomID type : Nat)
  /-- the call `scene->get_locked(geomID)->setMask(mask)` -/
  | setMask (geomID : Nat) (mask : Int)
  /-- the call `scene->intersectW(valid, ray)` (`occluded = false`) or
  `scene->occludedW(valid, ray)` (`occluded = true`) for `W = width`; the two
  pointers are recorded by address -/
  | packetQuery (occluded : Bool) (width valid ray : Nat)
  /-- the call `resizeTessellationCache(new_size)` -/
  | resizeTessellationCache (new_size : Nat)
  /-- the call `new Scene(device, flags, aflags)` -/
  | newScene (flags aflags : Nat)

/-- The methods of the scene class that the modelled boundary functions call.
`S` is the state of a scene object. Each method returns normally or raises a
fault, and leaves the scene object in some state either way. -/
structure Engine (S F : Type) where
  /-- the method `Scene::build(threadID, numThreads)`; the last argument is
  the MXCSR value under which it runs -/
  build : S → Nat → Nat → Nat → Except Fault Unit × S
  /-- the expression `get_locked(geomID)->setTransform(transform)` -/
  setTransform : S → Nat → AffineSpace3fa F → Except Fault Unit × S
  /-- the method `Scene::newTriangleMesh`, returning the geometry ID -/
  newTriangleMesh : S → Nat → Nat → Nat → Nat → Except Fault Nat × S
  /-- the expression `get_locked(geomID)->map(type)`, returning the address
  of the buffer (`none` for null) -/
  map : S → Nat → Nat → Except Fault (Option Nat) × S
  /-- the expression `get_locked(geomID)->setMask(mask)` -/
  setMask : S → Nat → Int → Except Fault Unit × S

/-- What the boundary functions act on besides the scene they are handed:
the global state, the MXCSR register of each thread, and the log of the calls
made into the scene object (oldest first). -/
structure World (F : Type) where
  state : State
  mxcsr : Nat → Nat
  calls : List (EngineCall F)

/-- Write `v` to the MXCSR register of thread `t`: `_mm_setcsr(v)`. -/
def setcsr (regs : Nat → Nat) (t : Nat) (v : Nat) : Nat → Nat :=
  fun u => if u = t then v else regs u

/-- The mask `_MM_FLUSH_ZERO_MASK` of `xmmintrin.h`. -/
def MM_FLUSH_ZERO_MASK : Nat := 0x8000
/-- The mode `_MM_FLUSH_ZERO_ON` of `xmmintrin.h`. -/
def MM_FLUSH_ZERO_ON : Nat := 0x8000
/-- The mask `_MM_DENORMALS_ZERO_MASK` of `pmmintrin.h`. -/
def MM_DENORMALS_ZERO_MASK : Nat := 0x0040
/-- The mode `_MM_DENORMALS_ZERO_ON` of `pmmintrin.h`. -/
def MM_DENORMALS_ZERO_ON : Nat := 0x0040

/-- The intrinsic `_MM_SET_FLUSH_ZERO_MODE(mode)` of `xmmintrin.h`, as a function of the
register: `_mm_setcsr((_mm_getcsr() & ~_MM_FLUSH_ZERO_MASK) | mode)` on a
32-bit register. -/
def MM_SET_FLUSH_ZERO_MODE (mode csr : Nat) : Nat :=
  (csr &&& (0xFFFFFFFF ^^^ MM_FLUSH_ZERO_MASK)) ||| mode

/-- The intrinsic `_MM_SET_DENORMALS_ZERO_MODE(mode)` of `pmmintrin.h`:
`_mm_setcsr((_mm_getcsr() & ~_MM_DENORMALS_ZERO_MASK) | mode)`. -/
def MM_SET_DENORMALS_ZERO_MODE (mode csr : Nat) : Nat :=
  (csr &&& (0xFFFFFFFF ^^^ MM_DENORMALS_ZERO_MASK)) ||| mode

/-- The register value after lines 230-231 when it held `csr` before:
flush-to-zero switched on, then denormals-are-zero switched on. -/
def flushModesOn (csr : Nat) : Nat :=
  MM_SET_DENORMALS_ZERO_MODE MM_DENORMALS_ZERO_ON (MM_SET_FLUSH_ZERO_MODE MM_FLUSH_ZERO_ON csr)

/-! ## The boundary wrapper -/

/-- Modelled from the spec: the code and message a caught fault is converted
to by `RTCORE_CATCH_END` (a macro of `device.h`, which is not among the
sources). A library fault keeps its own code and message, an unanticipated
fault becomes `RTC_UNKNOWN_ERROR`. -/
def faultError : Fault → RTCError × Option String
  | Fault.rtcore_error error what => (error, some what)
  | Fault.unanticipated what => (RTC_UNKNOWN_ERROR, what)

/-- Modelled from the spec: the pair `RTCORE_CATCH_BEGIN; ... RTCORE_CATCH_END;`
of `device.h` around a body, followed by the statement `return fallthrough;`
that the source places after it. `r` is the outcome of the body: when the
body returned a value that value is the result; when it raised a fault the
fault is handed to `process_error` on the calling thread and control falls
through to the statement after the wrapper. -/
def RTCORE_CATCH {α β F : Type} (tid : Nat) (fallthrough : α)
    (r : Except Fault α × World F × β) : α × World F × β :=
  match r with
  | (Except.ok a, w, b) => (a, w, b)
  | (Except.error f, w, b) =>
    (fallthrough,
     { w with state := process_error tid (faultError f).1 (faultError f).2 w.state }, b)

/-- Modelled from the spec: the fault raised by `RTCORE_VERIFY_HANDLE(handle)`
for a null handle and by `RTCORE_VERIFY_GEOMID(id)` for the ID `-1` (macros of
`device.h`, which is not among the sources): an `RTC_INVALID_ARGUMENT`
library fault. -/
def invalidArgument {α : Type} : Except Fault α :=
  throw_RTCError RTC_INVALID_ARGUMENT "invalid argument"

/-- The `unsigned` value of `-1`. -/
def unsignedMinusOne : Nat := 4294967295

/-! ## Commit -/

/-- The body of `rtcCommit(scene)` between the wrapper macros (lines 200-208):
verify the handle, then call `build(0,0)`. The MXCSR register is not
touched. -/
def rtcCommit_body {S F : Type} (eng : Engine S F) (tid : Nat) (scene : Option S)
    (w : World F) : Except Fault Unit × World F × Option S :=
  match scene with
  | none => (invalidArgument, w, none)
  | some s =>
    let r := eng.build s 0 0 (w.mxcsr tid)
    (r.1, { w with calls := w.calls ++ [EngineCall.build 0 0 (w.mxcsr tid)] }, some r.2)

/-- `rtcCommit(scene)` called on thread `tid` (lines 197-211). -/
def rtcCommit {S F : Type} (eng : Engine S F) (tid : Nat) (scene : Option S)
    (w : World F) : Unit × World F × Option S :=
  RTCORE_CATCH tid () (rtcCommit_body eng tid scene w)

/-- The body of `rtcCommitThread(scene, threadID, numThreads)` between the
wrapper macros (lines 216-240): verify the handle; reject `numThreads == 0`;
on MIC reject a team size that is neither 1 nor a multiple of 4; otherwise
save MXCSR, switch flush-to-zero and denormals-are-zero on, call
`build(threadID, numThreads)`, and write the saved MXCSR back. The write-back
is the statement after the call, so it is not reached when the build raises
a fault. -/
def rtcCommitThread_body {S F : Type} (cfg : Build) (eng : Engine S F) (tid : Nat)
    (scene : Option S) (threadID numThreads : Nat) (w : World F) :
    Except Fault Unit × World F × Option S :=
  match scene with
  | none => (invalidArgument, w, none)
  | some s =>
    if numThreads = 0 then
      (throw_RTCError RTC_INVALID_OPERATION "invalid number of threads specified", w, some s)
    else if cfg.MIC && (numThreads % 4 != 0 && numThreads != 1) then
      (throw_RTCError RTC_INVALID_OPERATION
        "MIC requires numThreads % 4 == 0 in rtcCommitThread", w, some s)
    else
      let mxcsr := w.mxcsr tid
      let w1 : World F :=
        if cfg.MIC then w
        else
          { w with
            mxcsr := setcsr w.mxcsr tid
                       (MM_SET_DENORMALS_ZERO_MODE MM_DENORMALS_ZERO_ON
                         (MM_SET_FLUSH_ZERO_MODE MM_FLUSH_ZERO_ON (w.mxcsr tid))) }
      let r := eng.build s threadID numThreads (w1.mxcsr tid)
      let w2 : World F :=
        { w1 with calls := w1.calls ++ [EngineCall.build threadID numThreads (w1.mxcsr tid)] }
      match r.1 with
      | Except.error f => (Except.error f, w2, some r.2)
      | Except.ok () =>
        let w3 : World F :=
          if cfg.MIC then w2 else { w2 with mxcsr := setcsr w2.mxcsr tid mxcsr }
        (Except.ok (), w3, some r.2)

/-- `rtcCommitThread(scene, threadID, numThreads)` called on thread `tid`
(lines 213-243). -/
def rtcCommitThread {S F : Type} (cfg : Build) (eng : Engine S F) (tid : Nat)
    (scene : Option S) (threadID numThreads : Nat) (w : World F) :
    Unit × World F × Option S :=
  RTCORE_CATCH tid () (rtcCommitThread_body cfg eng tid scene threadID numThreads w)

/-! ## Transforms -/

/-- The body of `rtcSetTransform(scene, geomID, layout, xfm)` between the
wrapper macros (lines 495-527): verify the scene handle, the geometry ID and
the array pointer; decode the array according to the layout (an unrecognised
layout raises `RTC_INVALID_OPERATION`); hand the transform to the geometry
through the locked accessor. The local `transform` starts as the identity
`one` in the source; every path through the `switch` assigns it or throws, so
that initial value is never used and `decoded` is the value after the
`switch`. -/
def rtcSetTransform_body {S F : Type} (eng : Engine S F)
    (scene : Option S) (geomID : Nat) (layout : RTCMatrixType) (xfm : Option (Nat → F))
    (w : World F) : Except Fault Unit × World F × Option S :=
  match scene with
  | none => (invalidArgument, w, none)
  | some s =>
    if geomID = unsignedMinusOne then (invalidArgument, w, some s)
    else
      match xfm with
      | none => (invalidArgument, w, some s)
      | some xfm =>
        let decoded : Except Fault (AffineSpace3fa F) :=
          match layout with
          | RTC_MATRIX_ROW_MAJOR =>
            Except.ok (AffineSpace3fa.mk (Vec3fa.mk (xfm 0) (xfm 4) (xfm 8))
                                         (Vec3fa.mk (xfm 1) (xfm 5) (xfm 9))
                                         (Vec3fa.mk (xfm 2) (xfm 6) (xfm 10))
                                         (Vec3fa.mk (xfm 3) (xfm 7) (xfm 11)))
          | RTC_MATRIX_COLUMN_MAJOR =>
            Except.ok (AffineSpace3fa.mk (Vec3fa.mk (xfm 0) (xfm 1) (xfm 2))
                                         (Vec3fa.mk (xfm 3) (xfm 4) (xfm 5))
                                         (Vec3fa.mk (xfm 6) (xfm 7) (xfm 8))
                                         (Vec3fa.mk (xfm 9) (xfm 10) (xfm 11)))
          | RTC_MATRIX_COLUMN_MAJOR_ALIGNED16 =>
            Except.ok (AffineSpace3fa.mk (Vec3fa.mk (xfm 0) (xfm 1) (xfm 2))
                                         (Vec3fa.mk (xfm 4) (xfm 5) (xfm 6))
                                         (Vec3fa.mk (xfm 8) (xfm 9) (xfm 10))
                                         (Vec3fa.mk (xfm 12) (xfm 13) (xfm 14)))
          | unrecognised _ =>
            throw_RTCError RTC_INVALID_OPERATION "Unknown matrix type"
        match decoded with
        | Except.error f => (Except.error f, w, some s)
        | Except.ok transform =>
          let r := eng.setTransform s geomID transform
          (r.1, { w with calls := w.calls ++ [EngineCall.setTransform geomID transform] },
           some r.2)

/-- `rtcSetTransform(scene, geomID, layout, xfm)` called on thread `tid`
(lines 491-530). -/
def rtcSetTransform {S F : Type} (eng : Engine S F) (tid : Nat)
    (scene : Option S) (geomID : Nat) (layout : RTCMatrixType) (xfm : Option (Nat → F))
    (w : World F) : Unit × World F × Option S :=
  RTCORE_CATCH tid () (rtcSetTransform_body eng scene geomID layout xfm w)

/-! ## Three more boundary functions, one for each kind of result -/

/-- `rtcNewTriangleMesh(scene, flags, numTriangles, numVertices, numTimeSteps)`
called on thread `tid` (lines 542-550); the statement after the wrapper is
`return -1;` in a function returning `unsigned`. -/
def rtcNewTriangleMesh {S F : Type} (eng : Engine S F) (tid : Nat) (scene : Option S)
    (flags numTriangles numVertices numTimeSteps : Nat) (w : World F) :
    Nat × World F × Option S :=
  RTCORE_CATCH tid unsignedMinusOne
    (match scene with
     | none => (invalidArgument, w, none)
     | some s =>
       let r := eng.newTriangleMesh s flags numTriangles numVertices numTimeSteps
       (r.1,
        { w with
          calls := w.calls ++
                     [EngineCall.newTriangleMesh flags numTriangles numVertices numTimeSteps] },
        some r.2))

/-- `rtcMapBuffer(scene, geomID, type)` called on thread `tid` (lines
593-602); the statement after the wrapper is `return nullptr;`. -/
def rtcMapBuffer {S F : Type} (eng : Engine S F) (tid : Nat) (scene : Option S)
    (geomID type : Nat) (w : World F) : Option Nat × World F × Option S :=
  RTCORE_CATCH tid none
    (match scene with
     | none => (invalidArgument, w, none)
     | some s =>
       if geomID = unsignedMinusOne then (invalidArgument, w, some s)
       else
         let r := eng.map s geomID type
         (r.1, { w with calls := w.calls ++ [EngineCall.map geomID type] }, some r.2))

/-- `rtcSetMask(scene, geomID, mask)` called on thread `tid` (lines 573-581);
nothing follows the wrapper. -/
def rtcSetMask {S F : Type} (eng : Engine S F) (tid : Nat) (scene : Option S)
    (geomID : Nat) (mask : Int) (w : World F) : Unit × World F × Option S :=
  RTCORE_CATCH tid ()
    (match scene with
     | none => (invalidArgument, w, none)
     | some s =>
       if geomID = unsignedMinusOne then (invalidArgument, w, some s)
       else
         let r := eng.setMask s geomID mask
         (r.1, { w with calls := w.calls ++ [EngineCall.setMask geomID mask] }, some r.2))

/-! ## Flat arrays for a logical matrix (used to state the layout equivalence) -/

/-- The array with the elements of `l`, continued by `pad`. -/
def arrayOf {F : Type} (l : List F) (pad : F) : Nat → F :=
  fun i => l.getD i pad

/-- Row-major form of the 3x4 matrix whose columns are the basis vectors and
the translation of `M`: the three rows one after the other. -/
def rowMajor {F : Type} (M : AffineSpace3fa F) : List F :=
  [M.vx.x, M.vy.x, M.vz.x, M.p.x,
   M.vx.y, M.vy.y, M.vz.y, M.p.y,
   M.vx.z, M.vy.z, M.vz.z, M.p.z]

/-- Column-major form: the four columns one after the other, three floats
each. -/
def columnMajor {F : Type} (M : AffineSpace3fa F) : List F :=
  [M.vx.x, M.vx.y, M.vx.z,
   M.vy.x, M.vy.y, M.vy.z,
   M.vz.x, M.vz.y, M.vz.z,
   M.p.x, M.p.y, M.p.z]

/-- Column-major form with a stride of 16 bytes per column: each column takes
four floats, the fourth being the filler `f0 .. f3`. -/
def columnMajorAligned16 {F : Type} (M : AffineSpace3fa F) (f0 f1 f2 f3 : F) : List F :=
  [M.vx.x, M.vx.y, M.vx.z, f0,
   M.vy.x, M.vy.y, M.vy.z, f1,
   M.vz.x, M.vz.y, M.vz.z, f2,
   M.p.x, M.p.y, M.p.z, f3]

/-! ## Concrete engines and worlds used in the examples -/

/-- An initial global state: quiet, no callbacks, every error cell empty. -/
def State.init : State :=
  { verbosity1 := false, g_error_function := false, g_memory_monitor_function := none,
    error := fun _ => RTC_NO_ERROR, cerr := [], error_function_calls := [] }

/-- An initial world: every thread has the default MXCSR value `0x1F80`. -/
def World.init (F : Type) : World F :=
  { state := State.init, mxcsr := fun _ => 0x1F80, calls := [] }

/-- An engine over scenes that remember the arguments of their last build
(thread ID, team size, MXCSR) and the last transform they were handed; no
method faults. -/
def recordingEngine : Engine (Nat × Nat × Nat) Int :=
  { build := fun _ threadID numThreads mxcsr => (Except.ok (), (threadID, numThreads, mxcsr)),
    setTransform := fun s _ _ => (Except.ok (), s),
    newTriangleMesh := fun s _ _ _ _ => (Except.ok 0, s),
    map := fun s _ _ => (Except.ok (some 4096), s),
    setMask := fun s _ _ => (Except.ok (), s) }

/-- An engine every method of which raises a fault: a library fault with
`RTC_OUT_OF_MEMORY` from the build and the mesh creation, an unanticipated
fault from the others. The scene is left as it is. -/
def faultingEngine : Engine Nat Int :=
  { build := fun s _ _ _ => (Except.error (Fault.rtcore_error RTC_OUT_OF_MEMORY "build"), s),
    setTransform := fun s _ _ => (Except.error (Fault.unanticipated none), s),
    newTriangleMesh := fun s _ _ _ _ =>
      (Except.error (Fault.rtcore_error RTC_OUT_OF_MEMORY "alloc"), s),
    map := fun s _ _ => (Except.error (Fault.unanticipated (some "bad map")), s),
    setMask := fun s _ _ => (Except.error (Fault.unanticipated none), s) }

/-- An engine whose build counts the commits of a scene and pays no regard to
its arguments or to MXCSR; no method faults. -/
def countingEngine : Engine Nat Int :=
  { build := fun s _ _ _ => (Except.ok (), s + 1),
    setTransform := fun s _ _ => (Except.ok (), s),
    newTriangleMesh := fun s _ _ _ _ => (Except.ok 0, s),
    map := fun s _ _ => (Except.ok none, s),
    setMask := fun s _ _ => (Except.ok (), s) }

/-- A build for a mainstream x86 target: none of the switches but the SIMD
widths 4 and 8 is defined. -/
def Build.x86 : Build :=
  { MIC := false, DEBUG := false, TASKING_LOCKSTEP := false, TASKING_TBB_INTERNAL := false,
    TARGET_SIMD4 := true, TARGET_SIMD8 := true, TARGET_SIMD16 := false }

/-- A build for the MIC target. -/
def Build.mic : Build :=
  { MIC := true, DEBUG := false, TASKING_LOCKSTEP := true, TASKING_TBB_INTERNAL := false,
    TARGET_SIMD4 := false, TARGET_SIMD8 := false, TARGET_SIMD16 := true }

/-! ## Ray packet queries -/

/-- A pointer argument: the address it holds and the object it designates. -/
structure Ref (α : Type) where
  addr : Nat
  val : α

/-- The methods of the scene class behind the packet queries. `M` is a
validity mask, `R` a ray packet (of whichever width). A query method returns
normally or raises a fault, and leaves the scene and the ray packet in some
state. -/
structure QueryEngine (S M R : Type) where
  /-- the method `Scene::isModified()` -/
  isModified : S → Bool
  /-- the method `Scene::intersect4(valid, ray)` -/
  intersect4 : S → M → R → Except Fault Unit × S × R
  /-- the method `Scene::intersect8(valid, ray)` -/
  intersect8 : S → M → R → Except Fault Unit × S × R
  /-- the method `Scene::intersect16(valid, ray)` -/
  intersect16 : S → M → R → Except Fault Unit × S × R
  /-- the method `Scene::occluded4(valid, ray)` -/
  occluded4 : S → M → R → Except Fault Unit × S × R
  /-- the method `Scene::occluded8(valid, ray)` -/
  occluded8 : S → M → R → Except Fault Unit × S × R
  /-- the method `Scene::occluded16(valid, ray)` -/
  occluded16 : S → M → R → Except Fault Unit × S × R

/-- The code the six packet query functions share between the wrapper macros
(lines 272-294 for `rtcIntersect4`, and the same shape for the other five).
`supported` is the `__TARGET_SIMDW__` switch, `debug` the `DEBUG` switch,
`alignMask` the constant the two addresses are tested against, `bytes` the
number in the two alignment messages, `method` the scene method and `call`
its entry for the call log.

When the width is not supported the only statement is the throw. Otherwise, in
a `DEBUG` build: verify the handle, reject a modified scene, reject a
misaligned mask, reject a misaligned ray. Then the scene method is called
through the handle; with a null handle that is undefined behaviour, for which
the result is `none`. -/
def packetQuery_body {S M R F : Type} (supported debug : Bool) (notSupported : String)
    (alignMask : Nat) (bytes : String) (isModified : S → Bool)
    (method : S → M → R → Except Fault Unit × S × R) (call : EngineCall F)
    (valid : Ref M) (scene : Option S) (ray : Ref R) (w : World F) :
    Option (Except Fault Unit × World F × Option S × R) :=
  if !supported then
    some (throw_RTCError RTC_INVALID_OPERATION notSupported, w, scene, ray.val)
  else
    let verified : Except Fault Unit :=
      if debug then
        match scene with
        | none => invalidArgument
        | some s =>
          if isModified s then
            throw_RTCError RTC_INVALID_OPERATION "scene got not committed"
          else if valid.addr &&& alignMask ≠ 0 then
            throw_RTCError RTC_INVALID_ARGUMENT ("mask not aligned to " ++ bytes ++ " bytes")
          else if ray.addr &&& alignMask ≠ 0 then
            throw_RTCError RTC_INVALID_ARGUMENT ("ray not aligned to " ++ bytes ++ " bytes")
          else Except.ok ()
      else Except.ok ()
    match verified with
    | Except.error f => some (Except.error f, w, scene, ray.val)
    | Except.ok () =>
      match scene with
      | none => none
      | some s =>
        let r := method s valid.val ray.val
        some (r.1, { w with calls := w.calls ++ [call] }, some r.2.1, r.2.2)

/-- `rtcIntersect4(valid, scene, ray)` called on thread `tid` (lines 268-296). -/
def rtcIntersect4 {S M R F : Type} (cfg : Build) (eng : QueryEngine S M R) (tid : Nat)
    (valid : Ref M) (scene : Option S) (ray : Ref R) (w : World F) :
    Option (Unit × World F × Option S × R) :=
  (packetQuery_body cfg.TARGET_SIMD4 cfg.DEBUG "rtcIntersect4 not supported" 0x0F "16"
    eng.isModified eng.intersect4 (EngineCall.packetQuery false 4 valid.addr ray.addr)
    valid scene ray w).map (RTCORE_CATCH tid ())

/-- `rtcIntersect8(valid, scene, ray)` called on thread `tid` (lines 298-326). -/
def rtcIntersect8 {S M R F : Type} (cfg : Build) (eng : QueryEngine S M R) (tid : Nat)
    (valid : Ref M) (scene : Option S) (ray : Ref R) (w : World F) :
    Option (Unit × World F × Option S × R) :=
  (packetQuery_body cfg.TARGET_SIMD8 cfg.DEBUG "rtcIntersect8 not supported" 0x1F "32"
    eng.isModified eng.intersect8 (EngineCall.packetQuery false 8 valid.addr ray.addr)
    valid scene ray w).map (RTCORE_CATCH tid ())

/-- `rtcIntersect16(valid, scene, ray)` called on thread `tid` (lines 328-356). -/
def rtcIntersect16 {S M R F : Type} (cfg : Build) (eng : QueryEngine S M R) (tid : Nat)
    (valid : Ref M) (scene : Option S) (ray : Ref R) (w : World F) :
    Option (Unit × World F × Option S × R) :=
  (packetQuery_body cfg.TARGET_SIMD16 cfg.DEBUG "rtcIntersect16 not supported" 0x3F "64"
    eng.isModified eng.intersect16 (EngineCall.packetQuery false 16 valid.addr ray.addr)
    valid scene ray w).map (RTCORE_CATCH tid ())

/-- `rtcOccluded4(valid, scene, ray)` called on thread `tid` (lines 381-409). -/
def rtcOccluded4 {S M R F : Type} (cfg : Build) (eng : QueryEngine S M R) (tid : Nat)
    (valid : Ref M) (scene : Option S) (ray : Ref R) (w : World F) :
    Option (Unit × World F × Option S × R) :=
  (packetQuery_body cfg.TARGET_SIMD4 cfg.DEBUG "rtcOccluded4 not supported" 0x0F "16"
    eng.isModified eng.occluded4 (EngineCall.packetQuery true 4 valid.addr ray.addr)
    valid scene ray w).map (RTCORE_CATCH tid ())

/-- `rtcOccluded8(valid, scene, ray)` called on thread `tid` (lines 411-439). -/
def rtcOccluded8 {S M R F : Type} (cfg : Build) (eng : QueryEngine S M R) (tid : Nat)
    (valid : Ref M) (scene : Option S) (ray : Ref R) (w : World F) :
    Option (Unit × World F × Option S × R) :=
  (packetQuery_body cfg.TARGET_SIMD8 cfg.DEBUG "rtcOccluded8 not supported" 0x1F "32"
    eng.isModified eng.occluded8 (EngineCall.packetQuery true 8 valid.addr ray.addr)
    valid scene ray w).map (RTCORE_CATCH tid ())

/-- `rtcOccluded16(valid, scene, ray)` called on thread `tid` (lines 441-469). -/
def rtcOccluded16 {S M R F : Type} (cfg : Build) (eng : QueryEngine S M R) (tid : Nat)
    (valid : Ref M) (scene : Option S) (ray : Ref R) (w : World F) :
    Option (Unit × World F × Option S × R) :=
  (packetQuery_body cfg.TARGET_SIMD16 cfg.DEBUG "rtcOccluded16 not supported" 0x3F "64"
    eng.isModified eng.occluded16 (EngineCall.packetQuery true 16 valid.addr ray.addr)
    valid scene ray w).map (RTCORE_CATCH tid ())

/-- The packet widths with a query function of their own. -/
inductive Width where
  | w4
  | w8
  | w16
  deriving DecidableEq, Repr

/-- The number of rays in a packet of the width. -/
def Width.lanes : Width → Nat
  | Width.w4 => 4
  | Width.w8 => 8
  | Width.w16 => 16

/-- Whether the build target supports the width: the switch
`__TARGET_SIMD4__`, `__TARGET_SIMD8__` or `__TARGET_SIMD16__`. -/
def Build.supports (cfg : Build) : Width → Bool
  | Width.w4 => cfg.TARGET_SIMD4
  | Width.w8 => cfg.TARGET_SIMD8
  | Width.w16 => cfg.TARGET_SIMD16

/-- The scene method behind `intersectW` (`occluded = false`) or `occludedW`
(`occluded = true`). -/
def QueryEngine.method {S M R : Type} (eng : QueryEngine S M R) (occluded : Bool) (W : Width) :
    S → M → R → Except Fault Unit × S × R :=
  match occluded, W with
  | false, Width.w4 => eng.intersect4
  | false, Width.w8 => eng.intersect8
  | false, Width.w16 => eng.intersect16
  | true, Width.w4 => eng.occluded4
  | true, Width.w8 => eng.occluded8
  | true, Width.w16 => eng.occluded16

/-- The six packet query functions, indexed by kind and width:
`rtcIntersectW` for `occluded = false`, `rtcOccludedW` for `occluded = true`. -/
def rtcPacketQuery {S M R F : Type} (cfg : Build) (eng : QueryEngine S M R) (tid : Nat)
    (occluded : Bool) (W : Width) (valid : Ref M) (scene : Option S) (ray : Ref R)
    (w : World F) : Option (Unit × World F × Option S × R) :=
  match occluded, W with
  | false, Width.w4 => rtcIntersect4 cfg eng tid valid scene ray w
  | false, Width.w8 => rtcIntersect8 cfg eng tid valid scene ray w
  | false, Width.w16 => rtcIntersect16 cfg eng tid valid scene ray w
  | true, Width.w4 => rtcOccluded4 cfg eng tid valid scene ray w
  | true, Width.w8 => rtcOccluded8 cfg eng tid valid scene ray w
  | true, Width.w16 => rtcOccluded16 cfg eng tid valid scene ray w

/-- A query engine over scenes that are just their modified flag, with lists
of integers as masks and ray packets: every query method overwrites the ray
packet with the mask and faults never. -/
def maskCopyEngine : QueryEngine Bool (List Int) (List Int) :=
  { isModified := fun s => s,
    intersect4 := fun s m _ => (Except.ok (), s, m),
    intersect8 := fun s m _ => (Except.ok (), s, m),
    intersect16 := fun s m _ => (Except.ok (), s, m),
    occluded4 := fun s m _ => (Except.ok (), s, m),
    occluded8 := fun s m _ => (Except.ok (), s, m),
    occluded16 := fun s m _ => (Except.ok (), s, m) }

/-- The x86 build with `DEBUG` defined. -/
def Build.x86Debug : Build :=
  { Build.x86 with DEBUG := true }

/-! ## The legacy singleton device -/

/-- The global `g_device` of line 92 together with a count of the `Device`
objects that exist: those built by a `new Device` of this file and not yet
deleted. The count is bookkeeping of the model; the code has no such
variable. `D` is the state of a device object. -/
structure Registry (D : Type) where
  /-- the pointer `g_device`, `none` for null -/
  g_device : Option D
  /-- the number of device objects alive -/
  live : Nat

/-- The registry at program start: `g_device = nullptr`, no device object. -/
def Registry.init (D : Type) : Registry D :=
  { g_device := none, live := 0 }

/-- The body of `rtcInit(cfg)` between the wrapper macros (lines 97-100). The
lock on `g_mutex` has no effect in a sequential run. `newDevice` is the
constructor `Device(cfg)`, which may raise a fault; then no object exists and
no assignment happens. -/
def rtcInit_body {D F : Type} (newDevice : Option String → Except Fault D)
    (cfg : Option String) (w : World F) (reg : Registry D) :
    Except Fault Unit × World F × Registry D :=
  if reg.g_device.isSome then
    (throw_RTCError RTC_INVALID_OPERATION "already initialized", w, reg)
  else
    match newDevice cfg with
    | Except.error f => (Except.error f, w, reg)
    | Except.ok d => (Except.ok (), w, { g_device := some d, live := reg.live + 1 })

/-- `rtcInit(cfg)` called on thread `tid` (lines 94-102). -/
def rtcInit {D F : Type} (newDevice : Option String → Except Fault D) (tid : Nat)
    (cfg : Option String) (w : World F) (reg : Registry D) : Unit × World F × Registry D :=
  RTCORE_CATCH tid () (rtcInit_body newDevice cfg w reg)

/-- The body of `rtcExit()` between the wrapper macros (lines 107-110):
without a device throw, otherwise delete the device and reset the pointer.
The destructor of the device is taken not to raise a fault. -/
def rtcExit_body {D F : Type} (w : World F) (reg : Registry D) :
    Except Fault Unit × World F × Registry D :=
  if !reg.g_device.isSome then
    (throw_RTCError RTC_INVALID_OPERATION "rtcInit has to get called before rtcExit", w, reg)
  else
    (Except.ok (), w, { g_device := none, live := reg.live - 1 })

/-- `rtcExit()` called on thread `tid` (lines 104-112). -/
def rtcExit {D F : Type} (tid : Nat) (w : World F) (reg : Registry D) :
    Unit × World F × Registry D :=
  RTCORE_CATCH tid () (rtcExit_body w reg)

/-- A call of the legacy pair. -/
inductive LegacyCall where
  | init (cfg : Option String)
  | exit

/-- The body outcome of a legacy call in a given world and registry. -/
def LegacyCall.body {D F : Type} (newDevice : Option String → Except Fault D) :
    LegacyCall → World F → Registry D → Except Fault Unit × World F × Registry D
  | LegacyCall.init cfg, w, reg => rtcInit_body newDevice cfg w reg
  | LegacyCall.exit, w, reg => rtcExit_body w reg

/-- A legacy call made on thread `tid`. -/
def LegacyCall.run {D F : Type} (newDevice : Option String → Except Fault D) (tid : Nat) :
    LegacyCall → World F × Registry D → World F × Registry D
  | LegacyCall.init cfg, (w, reg) => (rtcInit newDevice tid cfg w reg).2
  | LegacyCall.exit, (w, reg) => (rtcExit tid w reg).2

/-- A sequence of legacy calls, each made on the thread paired with it. -/
def runLegacy {D F : Type} (newDevice : Option String → Except Fault D) :
    List (Nat × LegacyCall) → World F × Registry D → World F × Registry D
  | [], st => st
  | (tid, c) :: cs, st => runLegacy newDevice cs (c.run newDevice tid st)

/-- Whether the call is an `rtcInit`. -/
def LegacyCall.isInit : LegacyCall → Bool
  | LegacyCall.init _ => true
  | LegacyCall.exit => false

/-- The calls of a sequence that succeed (their body returns normally), in
order, each given by whether it is an `rtcInit`. -/
def successTrace {D F : Type} (newDevice : Option String → Except Fault D) :
    List (Nat × LegacyCall) → World F × Registry D → List Bool
  | [], _ => []
  | (tid, c) :: cs, st =>
    (if (c.body newDevice st.1 st.2).1.toBool then [c.isInit] else []) ++
      successTrace newDevice cs (c.run newDevice tid st)

/-- A list of call kinds alternates, starting with an `rtcInit` when
`expectInit` is true and with an `rtcExit` otherwise. -/
def alternates : Bool → List Bool → Bool
  | _, [] => true
  | expectInit, k :: ks => (k == expectInit) && alternates (!expectInit) ks

/-- A device constructor for the examples: it keeps the configuration string
and faults on the configuration `"bad"`. -/
def exampleDevice : Option String → Except Fault (Option String)
  | some "bad" => Except.error (Fault.unanticipated (some "bad configuration"))
  | cfg => Except.ok cfg

/-! ## Parameters -/

/-- The values of `RTCParameter` the `switch` of `rtcSetParameter1i` tells
apart: the software cache size, and any other value (the `default` branch). -/
inductive RTCParameter where
  | RTC_SOFTWARE_CACHE_SIZE
  | other (raw : Nat)
  deriving DecidableEq, Repr

open RTCParameter

/-- The body of `rtcSetParameter1i(parm, val)` between the wrapper macros
(lines 117-121). `resizeTessellationCache` is the function of that name,
which is not part of this file: it acts on the cache state `C` and may raise
a fault. Its `size_t` argument is `max(ssize_t(1024*1024), val)`, a positive
value, so the conversion from `ssize_t` is exact. -/
def rtcSetParameter1i_body {C F : Type}
    (resizeTessellationCache : C → Nat → Except Fault Unit × C)
    (parm : RTCParameter) (val : Int) (w : World F) (cache : C) :
    Except Fault Unit × World F × C :=
  match parm with
  | RTC_SOFTWARE_CACHE_SIZE =>
    let r := resizeTessellationCache cache (max ((1024 * 1024 : Nat) : Int) val).toNat
    (r.1,
     { w with
       calls := w.calls ++
                  [EngineCall.resizeTessellationCache
                    (max ((1024 * 1024 : Nat) : Int) val).toNat] },
     r.2)
  | RTCParameter.other _ => (throw_RTCError RTC_INVALID_ARGUMENT "unknown parameter", w, cache)

/-- `rtcSetParameter1i(parm, val)` called on thread `tid` (lines 114-123). -/
def rtcSetParameter1i {C F : Type} (resizeTessellationCache : C → Nat → Except Fault Unit × C)
    (tid : Nat) (parm : RTCParameter) (val : Int) (w : World F) (cache : C) :
    Unit × World F × C :=
  RTCORE_CATCH tid () (rtcSetParameter1i_body resizeTessellationCache parm val w cache)

/-- A cache for the examples: its state is its size, and resizing never
faults. -/
def exampleResize : Nat → Nat → Except Fault Unit × Nat :=
  fun _ new_size => (Except.ok (), new_size)

/-! ## Scene creation -/

/-- The two scene flags `rtcNewScene` looks at. Their numeric values are
declared in the public header, which is not among the sources, so they are
parameters here. -/
structure SceneFlagBits where
  /-- the enumerator `RTC_SCENE_COHERENT` -/
  RTC_SCENE_COHERENT : Nat
  /-- the enumerator `RTC_SCENE_INCOHERENT` -/
  RTC_SCENE_INCOHERENT : Nat

/-- Modelled from the spec: `isCoherent(flags)`, a helper of the scene headers
(not among the sources): the Coherent flag is set in `flags`. -/
def isCoherent (bits : SceneFlagBits) (flags : Nat) : Bool :=
  flags &&& bits.RTC_SCENE_COHERENT == bits.RTC_SCENE_COHERENT

/-- Modelled from the spec: `isIncoherent(flags)`, a helper of the scene
headers (not among the sources): the Incoherent flag is set in `flags`. -/
def isIncoherent (bits : SceneFlagBits) (flags : Nat) : Bool :=
  flags &&& bits.RTC_SCENE_INCOHERENT == bits.RTC_SCENE_INCOHERENT

/-- `rtcNewScene(flags, aflags)` called on thread `tid` (lines 167-175), with
the current value of `g_device`. `newScene` is the constructor
`Scene(device, flags, aflags)`; the returned handle is null after a fault. -/
def rtcNewScene {D S F : Type} (bits : SceneFlagBits)
    (newScene : Option D → Nat → Nat → Except Fault S) (tid : Nat) (g_device : Option D)
    (flags aflags : Nat) (w : World F) : Option S × World F × Unit :=
  RTCORE_CATCH tid none
    (let flags1 :=
       if !isCoherent bits flags && !isIncoherent bits flags then
         flags ||| bits.RTC_SCENE_INCOHERENT
       else flags
     ((newScene g_device flags1 aflags).map some,
      { w with calls := w.calls ++ [EngineCall.newScene flags1 aflags] }, ()))

/-- `rtcNewScene2(device, flags, aflags)` called on thread `tid` (lines
177-186). -/
def rtcNewScene2 {D S F : Type} (bits : SceneFlagBits)
    (newScene : Option D → Nat → Nat → Except Fault S) (tid : Nat) (device : Option D)
    (flags aflags : Nat) (w : World F) : Option S × World F × Unit :=
  RTCORE_CATCH tid none
    (match device with
     | none => (invalidArgument, w, ())
     | some d =>
       let flags1 :=
         if !isCoherent bits flags && !isIncoherent bits flags then
           flags ||| bits.RTC_SCENE_INCOHERENT
         else flags
       ((newScene (some d) flags1 aflags).map some,
        { w with calls := w.calls ++ [EngineCall.newScene flags1 aflags] }, ()))

/-- The flag values of the examples: bit 9 for Coherent, bit 10 for
Incoherent. -/
def exampleBits : SceneFlagBits :=
  { RTC_SCENE_COHERENT := 512, RTC_SCENE_INCOHERENT := 1024 }

/-- A scene constructor for the examples: the scene state is the pair of
flags it was built with. -/
def exampleScene : Option Unit → Nat → Nat → Except Fault (Nat × Nat) :=
  fun _ flags aflags => Except.ok (flags, aflags)

/-! ## Transforms over an array of known length -/

/-- The read `Vec3fa(xfm[i], xfm[j], xfm[k])` from an array holding exactly the
elements of `l`: `none` when one of the three subscripts is outside the array
(undefined behaviour in the source). -/
def readVec3fa {F : Type} (l : List F) (i j k : Nat) : Option (Vec3fa F) :=
  match l[i]?, l[j]?, l[k]? with
  | some a, some b, some c => some (Vec3fa.mk a b c)
  | _, _, _ => none

/-- The constructor `AffineSpace3fa(vx, vy, vz, p)` over four such reads. -/
def readAffineSpace3fa {F : Type} (vx vy vz p : Option (Vec3fa F)) :
    Option (AffineSpace3fa F) :=
  match vx, vy, vz, p with
  | some a, some b, some c, some d => some (AffineSpace3fa.mk a b c d)
  | _, _, _, _ => none

/-- The body of `rtcSetTransform` (lines 495-527) as in `rtcSetTransform_body`,
with the array `xfm` given by the list of its elements, so that every subscript
of the source is a read that can fall outside the array. The result is `none`
when the run reads outside the array. -/
def rtcSetTransform_checked_body {S F : Type} (eng : Engine S F)
    (scene : Option S) (geomID : Nat) (layout : RTCMatrixType) (xfm : Option (List F))
    (w : World F) : Option (Except Fault Unit × World F × Option S) :=
  match scene with
  | none => some (invalidArgument, w, none)
  | some s =>
    if geomID = unsignedMinusOne then some (invalidArgument, w, some s)
    else
      match xfm with
      | none => some (invalidArgument, w, some s)
      | some xfm =>
        let decoded : Option (Except Fault (AffineSpace3fa F)) :=
          match layout with
          | RTC_MATRIX_ROW_MAJOR =>
            (readAffineSpace3fa (readVec3fa xfm 0 4 8) (readVec3fa xfm 1 5 9)
              (readVec3fa xfm 2 6 10) (readVec3fa xfm 3 7 11)).map Except.ok
          | RTC_MATRIX_COLUMN_MAJOR =>
            (readAffineSpace3fa (readVec3fa xfm 0 1 2) (readVec3fa xfm 3 4 5)
              (readVec3fa xfm 6 7 8) (readVec3fa xfm 9 10 11)).map Except.ok
          | RTC_MATRIX_COLUMN_MAJOR_ALIGNED16 =>
            (readAffineSpace3fa (readVec3fa xfm 0 1 2) (readVec3fa xfm 4 5 6)
              (readVec3fa xfm 8 9 10) (readVec3fa xfm 12 13 14)).map Except.ok
          | unrecognised _ =>
            some (throw_RTCError RTC_INVALID_OPERATION "Unknown matrix type")
        match decoded with
        | none => none
        | some (Except.error f) => some (Except.error f, w, some s)
        | some (Except.ok transform) =>
          let r := eng.setTransform s geomID transform
          some (r.1, { w with calls := w.calls ++ [EngineCall.setTransform geomID transform] },
                some r.2)

/-- `rtcSetTransform(scene, geomID, layout, xfm)` called on thread `tid`
(lines 491-530), over an array of known length. -/
def rtcSetTransform_checked {S F : Type} (eng : Engine S F) (tid : Nat)
    (scene : Option S) (geomID : Nat) (layout : RTCMatrixType) (xfm : Option (List F))
    (w : World F) : Option (Unit × World F × Option S) :=
  (rtcSetTransform_checked_body eng scene geomID layout xfm w).map (RTCORE_CATCH tid ())

/-! ## The public functions and their wrappers -/

/-- The public functions of `rtcore.cpp` (those declared `RTCORE_API`), in
the order of the file. -/
inductive PublicOp where
  /-- line 70, declared `RTCDevice` -/
  | rtcNewDevice
  /-- line 79, declared `void` -/
  | rtcDeleteDevice
  /-- line 94, declared `void` -/
  | rtcInit
  /-- line 104, declared `void` -/
  | rtcExit
  /-- line 114, declared `void` -/
  | rtcSetParameter1i
  /-- line 125, declared `RTCError` -/
  | rtcGetError
  /-- line 134, declared `void` -/
  | rtcSetErrorFunction
  /-- line 142, declared `void` -/
  | rtcSetMemoryMonitorFunction
  /-- line 150, declared `void` -/
  | rtcDebug
  /-- line 167, declared `RTCScene` -/
  | rtcNewScene
  /-- line 177, declared `RTCScene` -/
  | rtcNewScene2
  /-- line 188, declared `void` -/
  | rtcSetProgressMonitorFunction
  /-- line 197, declared `void` -/
  | rtcCommit
  /-- line 213, declared `void` -/
  | rtcCommitThread
  /-- line 245, declared `void` -/
  | rtcIntersect
  /-- line 268, declared `void` -/
  | rtcIntersect4
  /-- line 298, declared `void` -/
  | rtcIntersect8
  /-- line 328, declared `void` -/
  | rtcIntersect16
  /-- line 358, declared `void` -/
  | rtcOccluded
  /-- line 381, declared `void` -/
  | rtcOccluded4
  /-- line 411, declared `void` -/
  | rtcOccluded8
  /-- line 441, declared `void` -/
  | rtcOccluded16
  /-- line 471, declared `void` -/
  | rtcDeleteScene
  /-- line 480, declared `unsigned` -/
  | rtcNewInstance
  /-- line 491, declared `void` -/
  | rtcSetTransform
  /-- line 532, declared `unsigned` -/
  | rtcNewUserGeometry
  /-- line 542, declared `unsigned` -/
  | rtcNewTriangleMesh
  /-- line 552, declared `unsigned` -/
  | rtcNewHairGeometry
  /-- line 562, declared `unsigned` -/
  | rtcNewSubdivisionMesh
  /-- line 573, declared `void` -/
  | rtcSetMask
  /-- line 583, declared `void` -/
  | rtcSetBoundaryMode
  /-- line 593, declared `void*` -/
  | rtcMapBuffer
  /-- line 604, declared `void` -/
  | rtcUnmapBuffer
  /-- line 614, declared `void` -/
  | rtcSetBuffer
  /-- line 624, declared `void` -/
  | rtcEnable
  /-- line 634, declared `void` -/
  | rtcUpdate
  /-- line 644, declared `void` -/
  | rtcUpdateBuffer
  /-- line 654, declared `void` -/
  | rtcDisable
  /-- line 664, declared `void` -/
  | rtcDeleteGeometry
  /-- line 674, declared `void` -/
  | rtcSetUserData
  /-- line 684, declared `void*` -/
  | rtcGetUserData
  /-- line 695, declared `void` -/
  | rtcSetBoundsFunction
  /-- line 705, declared `void` -/
  | rtcSetDisplacementFunction
  /-- line 715, declared `void` -/
  | rtcSetIntersectFunction
  /-- line 725, declared `void` -/
  | rtcSetIntersectFunction4
  /-- line 735, declared `void` -/
  | rtcSetIntersectFunction8
  /-- line 745, declared `void` -/
  | rtcSetIntersectFunction16
  /-- line 755, declared `void` -/
  | rtcSetOccludedFunction
  /-- line 765, declared `void` -/
  | rtcSetOccludedFunction4
  /-- line 775, declared `void` -/
  | rtcSetOccludedFunction8
  /-- line 785, declared `void` -/
  | rtcSetOccludedFunction16
  /-- line 795, declared `void` -/
  | rtcSetIntersectionFilterFunction
  /-- line 805, declared `void` -/
  | rtcSetIntersectionFilterFunction4
  /-- line 815, declared `void` -/
  | rtcSetIntersectionFilterFunction8
  /-- line 825, declared `void` -/
  | rtcSetIntersectionFilterFunction16
  /-- line 835, declared `void` -/
  | rtcSetOcclusionFilterFunction
  /-- line 845, declared `void` -/
  | rtcSetOcclusionFilterFunction4
  /-- line 855, declared `void` -/
  | rtcSetOcclusionFilterFunction8
  /-- line 865, declared `void` -/
  | rtcSetOcclusionFilterFunction16
  /-- line 875, declared `void` -/
  | rtcInterpolate
  /-- line 887, declared `void` -/
  | rtcInterpolateN
  deriving DecidableEq, Repr

/-- A value a public function returns: nothing, an `unsigned`, a pointer by
its address (`none` for null), or an error code. -/
inductive ReturnValue where
  | void
  | unsigned (n : Nat)
  | pointer (p : Option Nat)
  | error (e : RTCError)
  deriving DecidableEq, Repr

/-- The statement each public function has after `RTCORE_CATCH_END`, as the
value it returns: nothing for the end of a `void` function, the `unsigned`
value of `-1` for `return -1;`, null for `return nullptr;`. The macro
`RTCORE_CATCH_BEGIN` is the first statement of every function that has
`RTCORE_CATCH_END`, so the whole body is between the two. `none` marks a
function without the two macros. -/
def PublicOp.fallthrough : PublicOp → Option ReturnValue
  | .rtcNewDevice => some (ReturnValue.pointer none)
  | .rtcDeleteDevice => some ReturnValue.void
  | .rtcInit => some ReturnValue.void
  | .rtcExit => some ReturnValue.void
  | .rtcSetParameter1i => some ReturnValue.void
  | .rtcGetError => none
  | .rtcSetErrorFunction => some ReturnValue.void
  | .rtcSetMemoryMonitorFunction => some ReturnValue.void
  | .rtcDebug => some ReturnValue.void
  | .rtcNewScene => some (ReturnValue.pointer none)
  | .rtcNewScene2 => some (ReturnValue.pointer none)
  | .rtcSetProgressMonitorFunction => some ReturnValue.void
  | .rtcCommit => some ReturnValue.void
  | .rtcCommitThread => some ReturnValue.void
  | .rtcIntersect => some ReturnValue.void
  | .rtcIntersect4 => some ReturnValue.void
  | .rtcIntersect8 => some ReturnValue.void
  | .rtcIntersect16 => some ReturnValue.void
  | .rtcOccluded => some ReturnValue.void
  | .rtcOccluded4 => some ReturnValue.void
  | .rtcOccluded8 => some ReturnValue.void
  | .rtcOccluded16 => some ReturnValue.void
  | .rtcDeleteScene => some ReturnValue.void
  | .rtcNewInstance => some (ReturnValue.unsigned unsignedMinusOne)
  | .rtcSetTransform => some ReturnValue.void
  | .rtcNewUserGeometry => some (ReturnValue.unsigned unsignedMinusOne)
  | .rtcNewTriangleMesh => some (ReturnValue.unsigned unsignedMinusOne)
  | .rtcNewHairGeometry => some (ReturnValue.unsigned unsignedMinusOne)
  | .rtcNewSubdivisionMesh => some (ReturnValue.unsigned unsignedMinusOne)
  | .rtcSetMask => some ReturnValue.void
  | .rtcSetBoundaryMode => some ReturnValue.void
  | .rtcMapBuffer => some (ReturnValue.pointer none)
  | .rtcUnmapBuffer => some ReturnValue.void
  | .rtcSetBuffer => some ReturnValue.void
  | .rtcEnable => some ReturnValue.void
  | .rtcUpdate => some ReturnValue.void
  | .rtcUpdateBuffer => some ReturnValue.void
  | .rtcDisable => some ReturnValue.void
  | .rtcDeleteGeometry => some ReturnValue.void
  | .rtcSetUserData => some ReturnValue.void
  | .rtcGetUserData => some (ReturnValue.pointer none)
  | .rtcSetBoundsFunction => some ReturnValue.void
  | .rtcSetDisplacementFunction => some ReturnValue.void
  | .rtcSetIntersectFunction => some ReturnValue.void
  | .rtcSetIntersectFunction4 => some ReturnValue.void
  | .rtcSetIntersectFunction8 => some ReturnValue.void
  | .rtcSetIntersectFunction16 => some ReturnValue.void
  | .rtcSetOccludedFunction => some ReturnValue.void
  | .rtcSetOccludedFunction4 => some ReturnValue.void
  | .rtcSetOccludedFunction8 => some ReturnValue.void
  | .rtcSetOccludedFunction16 => some ReturnValue.void
  | .rtcSetIntersectionFilterFunction => some ReturnValue.void
  | .rtcSetIntersectionFilterFunction4 => some ReturnValue.void
  | .rtcSetIntersectionFilterFunction8 => some ReturnValue.void
  | .rtcSetIntersectionFilterFunction16 => some ReturnValue.void
  | .rtcSetOcclusionFilterFunction => some ReturnValue.void
  | .rtcSetOcclusionFilterFunction4 => some ReturnValue.void
  | .rtcSetOcclusionFilterFunction8 => some ReturnValue.void
  | .rtcSetOcclusionFilterFunction16 => some ReturnValue.void
  | .rtcInterpolate => some ReturnValue.void
  | .rtcInterpolateN => some ReturnValue.void

/-- A call of the public function `op` on thread `tid` whose body has the
outcome `body`. A function bracketed by the wrapper macros is `RTCORE_CATCH`
with its own fall-through statement, and returns to its caller; a function
without them hands the outcome of its body to the caller as it is. In the
result `Except.error f` says that the fault `f` reaches the caller. -/
def PublicOp.call {β F : Type} (op : PublicOp) (tid : Nat)
    (body : Except Fault ReturnValue × World F × β) :
    Except Fault ReturnValue × World F × β :=
  match op.fallthrough with
  | some v => (Except.ok (RTCORE_CATCH tid v body).1, (RTCORE_CATCH tid v body).2)
  | none => body

theorem setCell_same (cells : Nat → RTCError) (t : Nat) (v : RTCError) :
    setCell cells t v t = v := by
  simp [setCell]

theorem setCell_other (cells : Nat → RTCError) (t u : Nat) (v : RTCError) (h : u ≠ t) :
    setCell cells t v u = cells u := by
  simp [setCell, h]

theorem process_error_cell (tid : Nat) (error : RTCError) (str : Option String) (st : State)
    (u : Nat) :
    (process_error tid error str st).error u =
      if u = tid ∧ st.error tid = RTC_NO_ERROR then error else st.error u := by
  unfold process_error
  by_cases hv : st.verbosity1 <;> by_cases hf : st.g_error_function <;>
    by_cases he : st.error tid = RTC_NO_ERROR <;> by_cases hu : u = tid <;>
    simp [hv, hf, he, hu, setCell]


theorem rtcGetError_fst (tid : Nat) (st : State) : (rtcGetError tid st).1 = st.error tid := rfl

theorem rtcGetError_cell (tid : Nat) (st : State) (u : Nat) :
    (rtcGetError tid st).2.error u = if u = tid then RTC_NO_ERROR else st.error u := by
  simp [rtcGetError, setCell]

theorem rtcGetError_iterate_cell (tid : Nat) (st : State) (n : Nat) :
    ((fun s => (rtcGetError tid s).2)^[n + 1] st).error tid = RTC_NO_ERROR := by
  induction n generalizing st with
  | zero => simp [rtcGetError_cell]
  | succ k ih =>
    rw [Function.iterate_succ_apply]
    exact ih _

/-! ## C1 and C2: the error cell -/

/-- C1: error recording is first-wins. When the cell of thread `tid` is empty
and `c1` is not `RTC_NO_ERROR`, recording `c1` and then `c2` on that thread
leaves `c1` in the cell; and a call of `process_error` on any thread never
changes a cell (of any thread) whose value is not `RTC_NO_ERROR`. -/
theorem process_error_first_wins (tid : Nat) (c1 c2 : RTCError) (m1 m2 : Option String)
    (st : State) (hc1 : c1 ≠ RTC_NO_ERROR) (hempty : st.error tid = RTC_NO_ERROR) :
    (process_error tid c2 m2 (process_error tid c1 m1 st)).error tid = c1 ∧
    ∀ (caller u : Nat) (c : RTCError) (m : Option String) (st' : State),
      st'.error u ≠ RTC_NO_ERROR → (process_error caller c m st').error u = st'.error u := by
  refine ⟨?_, ?_⟩
  · rw [process_error_cell, process_error_cell]
    simp [hempty, hc1]
  · intro caller u c m st' hne
    rw [process_error_cell]
    by_cases hu : u = caller
    · subst hu
      simp [hne]
    · simp [hu]

/-- Witness for C1: `RTC_INVALID_ARGUMENT` then `RTC_OUT_OF_MEMORY` on thread 0
of the initial state. -/
theorem process_error_first_wins_witness :
    (process_error 0 RTC_OUT_OF_MEMORY none
      (process_error 0 RTC_INVALID_ARGUMENT (some "a") State.init)).error 0
      = RTC_INVALID_ARGUMENT :=
  (process_error_first_wins 0 RTC_INVALID_ARGUMENT RTC_OUT_OF_MEMORY (some "a") none State.init
    (by decide) rfl).1

/-- C2: on a thread `T` whose cell is empty, after code `c` is recorded the
next `rtcGetError` on `T` returns `c`, each later `rtcGetError` on `T` returns
`RTC_NO_ERROR` (for any number of polls in between), and for every state an
error recorded on another thread `T'` changes neither what `rtcGetError` on `T`
returns nor the value a later poll on `T` finds. -/
theorem rtcGetError_once_then_clear (T : Nat) (c : RTCError) (m : Option String) (st : State)
    (hempty : st.error T = RTC_NO_ERROR) :
    (rtcGetError T (process_error T c m st)).1 = c ∧
    (∀ n : Nat,
      (rtcGetError T ((fun s => (rtcGetError T s).2)^[n + 1] (process_error T c m st))).1
        = RTC_NO_ERROR) ∧
    (∀ (T' : Nat) (c' : RTCError) (m' : Option String) (st' : State), T' ≠ T →
      (rtcGetError T (process_error T' c' m' st')).1 = (rtcGetError T st').1 ∧
      (process_error T' c' m' (rtcGetError T st').2).error T = RTC_NO_ERROR) := by
  refine ⟨?_, ?_, ?_⟩
  · rw [rtcGetError_fst, process_error_cell]
    simp [hempty]
  · intro n
    rw [rtcGetError_fst]
    exact rtcGetError_iterate_cell T _ n
  · intro T' c' m' st' hne
    refine ⟨?_, ?_⟩
    · rw [rtcGetError_fst, rtcGetError_fst, process_error_cell]
      simp [Ne.symm hne]
    · rw [process_error_cell]
      simp [Ne.symm hne, rtcGetError_cell]

/-- Witness for C2: `RTC_INVALID_OPERATION` recorded on thread 3 of the
initial state is returned by the next poll on thread 3. -/
theorem rtcGetError_once_then_clear_witness :
    (rtcGetError 3 (process_error 3 RTC_INVALID_OPERATION none State.init)).1
      = RTC_INVALID_OPERATION :=
  (rtcGetError_once_then_clear 3 RTC_INVALID_OPERATION none State.init rfl).1

/-! ## C3: faults are converted at the boundary -/

theorem RTCORE_CATCH_error {α β F : Type} (tid : Nat) (fallthrough : α) (f : Fault)
    (w : World F) (b : β) :
    RTCORE_CATCH tid fallthrough (Except.error f, w, b) =
      (fallthrough,
       { w with state := process_error tid (faultError f).1 (faultError f).2 w.state }, b) := rfl

theorem RTCORE_CATCH_ok {α β F : Type} (tid : Nat) (fallthrough a : α) (w : World F) (b : β) :
    RTCORE_CATCH tid fallthrough (Except.ok a, w, b) = (a, w, b) := rfl

theorem flushModesOn_testBit (m i : Nat) :
    (flushModesOn m).testBit i =
      ((m.testBit i && decide (i < 32)) || decide (i = 15) || decide (i = 6)) := by
  have h1 : (0x8000 : Nat) = 2 ^ 15 := by norm_num
  have h2 : (0x40 : Nat) = 2 ^ 6 := by norm_num
  have h3 : (0xFFFFFFFF : Nat) = 2 ^ 32 - 1 := by norm_num
  simp only [flushModesOn, MM_SET_DENORMALS_ZERO_MODE, MM_SET_FLUSH_ZERO_MODE,
    MM_FLUSH_ZERO_MASK, MM_FLUSH_ZERO_ON, MM_DENORMALS_ZERO_MASK, MM_DENORMALS_ZERO_ON, h1, h2, h3,
    Nat.testBit_or, Nat.testBit_and, Nat.testBit_xor, Nat.testBit_two_pow,
    Nat.testBit_two_pow_sub_one]
  by_cases h15 : i = 15
  · subst h15; simp
  · by_cases h6 : i = 6
    · subst h6; simp
    · have a : ¬ (15 = i) := fun h => h15 h.symm
      have b : ¬ (6 = i) := fun h => h6 h.symm
      by_cases hlt : i < 32 <;> simp [h15, h6, a, b, hlt]

theorem flushModesOn_flush_zero (m : Nat) :
    flushModesOn m &&& MM_FLUSH_ZERO_MASK = MM_FLUSH_ZERO_ON := by
  apply Nat.eq_of_testBit_eq
  intro i
  have h1 : MM_FLUSH_ZERO_MASK = 2 ^ 15 := by norm_num [MM_FLUSH_ZERO_MASK]
  have h2 : MM_FLUSH_ZERO_ON = 2 ^ 15 := by norm_num [MM_FLUSH_ZERO_ON]
  rw [Nat.testBit_and, flushModesOn_testBit, h1, h2, Nat.testBit_two_pow]
  by_cases h : i = 15
  · subst h; simp
  · have a : ¬ (15 = i) := fun e => h e.symm
    simp [a]

theorem flushModesOn_denormals_zero (m : Nat) :
    flushModesOn m &&& MM_DENORMALS_ZERO_MASK = MM_DENORMALS_ZERO_ON := by
  apply Nat.eq_of_testBit_eq
  intro i
  have h1 : MM_DENORMALS_ZERO_MASK = 2 ^ 6 := by norm_num [MM_DENORMALS_ZERO_MASK]
  have h2 : MM_DENORMALS_ZERO_ON = 2 ^ 6 := by norm_num [MM_DENORMALS_ZERO_ON]
  rw [Nat.testBit_and, flushModesOn_testBit, h1, h2, Nat.testBit_two_pow]
  by_cases h : i = 6
  · subst h; simp
  · have a : ¬ (6 = i) := fun e => h e.symm
    simp [a]

theorem flushModesOn_eq_or (m : Nat) (h : m < 2 ^ 32) : flushModesOn m = m ||| 0x8040 := by
  apply Nat.eq_of_testBit_eq
  intro i
  have h1 : (0x8040 : Nat) = 2 ^ 15 ||| 2 ^ 6 := by decide
  rw [flushModesOn_testBit, h1, Nat.testBit_or, Nat.testBit_or, Nat.testBit_two_pow,
    Nat.testBit_two_pow]
  by_cases hlt : i < 32
  · simp [hlt, Bool.or_assoc, eq_comm]
  · have hm : m.testBit i = false :=
      Nat.testBit_lt_two_pow
        (lt_of_lt_of_le h (Nat.pow_le_pow_right (by norm_num) (not_lt.mp hlt)))
    simp [hm, hlt, eq_comm]

theorem setcsr_same (regs : Nat → Nat) (t v : Nat) : setcsr regs t v t = v := by
  simp [setcsr]

theorem setcsr_setcsr_self (regs : Nat → Nat) (t v : Nat) :
    setcsr (setcsr regs t v) t (regs t) = regs := by
  funext u
  by_cases h : u = t <;> simp [setcsr, h]

/-- C4: for every scene, thread ID, build and engine,
`rtcCommitThread(scene, threadID, 0)` raises an `RTC_INVALID_OPERATION` library
fault in its body, and the call returns with that code handed to
`process_error` on the calling thread and nothing else changed: the log of
engine calls is as before (the build is not invoked), the scene object is as
before, and so is every MXCSR register. The code is in the thread's cell
afterwards when the cell was empty. -/
theorem rtcCommitThread_zero_threads {S F : Type} (cfg : Build) (eng : Engine S F) (tid : Nat)
    (s : S) (threadID : Nat) (w : World F) :
    (rtcCommitThread_body cfg eng tid (some s) threadID 0 w).1 =
      Except.error (Fault.rtcore_error RTC_INVALID_OPERATION
        "invalid number of threads specified") ∧
    rtcCommitThread cfg eng tid (some s) threadID 0 w =
      ((),
       { w with
         state := process_error tid RTC_INVALID_OPERATION
                    (some "invalid number of threads specified") w.state },
       some s) ∧
    (rtcCommitThread cfg eng tid (some s) threadID 0 w).2.1.calls = w.calls ∧
    (rtcCommitThread cfg eng tid (some s) threadID 0 w).2.1.mxcsr = w.mxcsr ∧
    (rtcCommitThread cfg eng tid (some s) threadID 0 w).2.2 = some s ∧
    (rtcCommitThread cfg eng tid (some s) threadID 0 w).2.1.state.error tid =
      (if w.state.error tid = RTC_NO_ERROR then RTC_INVALID_OPERATION
       else w.state.error tid) := by
  have h : rtcCommitThread cfg eng tid (some s) threadID 0 w =
      ((),
       { w with
         state := process_error tid RTC_INVALID_OPERATION
                    (some "invalid number of threads specified") w.state },
       some s) := by
    simp [rtcCommitThread, rtcCommitThread_body, RTCORE_CATCH, throw_RTCError, faultError]
  refine ⟨?_, h, ?_, ?_, ?_, ?_⟩
  · simp [rtcCommitThread_body, throw_RTCError]
  · rw [h]
  · rw [h]
  · rw [h]
  · rw [h]
    simp [process_error_cell]

theorem rtcCommitThread_zero_threads_mxcsr {S F : Type} (cfg : Build) (eng : Engine S F)
    (tid : Nat) (s : S) (threadID : Nat) (w : World F) :
    (rtcCommitThread cfg eng tid (some s) threadID 0 w).2.1.mxcsr = w.mxcsr := by
  simp [rtcCommitThread, rtcCommitThread_body, RTCORE_CATCH, throw_RTCError]

theorem rtcCommit_some {S F : Type} (eng : Engine S F) (tid : Nat) (s : S) (w : World F) :
    rtcCommit eng tid (some s) w =
      RTCORE_CATCH tid ()
        ((eng.build s 0 0 (w.mxcsr tid)).1,
         { w with calls := w.calls ++ [EngineCall.build 0 0 (w.mxcsr tid)] },
         some (eng.build s 0 0 (w.mxcsr tid)).2) := rfl

theorem rtcCommitThread_build_ok {S F : Type} (cfg : Build) (eng : Engine S F) (tid : Nat)
    (s : S) (threadID numThreads : Nat) (w : World F) (hn : numThreads ≠ 0)
    (hmic : cfg.MIC = false)
    (hok : (eng.build s threadID numThreads (flushModesOn (w.mxcsr tid))).1 = Except.ok ()) :
    rtcCommitThread cfg eng tid (some s) threadID numThreads w =
      ((),
       { w with
         calls := w.calls ++
                    [EngineCall.build threadID numThreads (flushModesOn (w.mxcsr tid))] },
       some (eng.build s threadID numThreads (flushModesOn (w.mxcsr tid))).2) := by
  have hok2 : (eng.build s threadID numThreads
      (MM_SET_DENORMALS_ZERO_MODE MM_DENORMALS_ZERO_ON
        (MM_SET_FLUSH_ZERO_MODE MM_FLUSH_ZERO_ON (w.mxcsr tid)))).1 = Except.ok () := hok
  simp only [rtcCommitThread, rtcCommitThread_body, hn, hmic, if_false, Bool.false_and,
    Bool.false_eq_true, setcsr_same, hok2, RTCORE_CATCH, setcsr_setcsr_self]
  rfl

theorem rtcCommitThread_build_error {S F : Type} (cfg : Build) (eng : Engine S F) (tid : Nat)
    (s : S) (threadID numThreads : Nat) (w : World F) (f : Fault) (hn : numThreads ≠ 0)
    (hmic : cfg.MIC = false)
    (herr : (eng.build s threadID numThreads (flushModesOn (w.mxcsr tid))).1 = Except.error f) :
    rtcCommitThread cfg eng tid (some s) threadID numThreads w =
      ((),
       { w with
         mxcsr := setcsr w.mxcsr tid (flushModesOn (w.mxcsr tid)),
         calls := w.calls ++
                    [EngineCall.build threadID numThreads (flushModesOn (w.mxcsr tid))],
         state := process_error tid (faultError f).1 (faultError f).2 w.state },
       some (eng.build s threadID numThreads (flushModesOn (w.mxcsr tid))).2) := by
  have herr2 : (eng.build s threadID numThreads
      (MM_SET_DENORMALS_ZERO_MODE MM_DENORMALS_ZERO_ON
        (MM_SET_FLUSH_ZERO_MODE MM_FLUSH_ZERO_ON (w.mxcsr tid)))).1 = Except.error f := herr
  simp only [rtcCommitThread, rtcCommitThread_body, hn, hmic, if_false, Bool.false_and,
    Bool.false_eq_true, setcsr_same, herr2, RTCORE_CATCH]
  rfl

theorem rtcCommitThread_mic {S F : Type} (cfg : Build) (eng : Engine S F) (tid : Nat)
    (s : S) (threadID numThreads : Nat) (w : World F) (hmic : cfg.MIC = true) :
    (rtcCommitThread cfg eng tid (some s) threadID numThreads w).2.1.mxcsr = w.mxcsr := by
  unfold rtcCommitThread rtcCommitThread_body
  by_cases hn : numThreads = 0
  · simp [hn, RTCORE_CATCH, throw_RTCError]
  · by_cases h4 : (numThreads % 4 != 0 && numThreads != 1) = true
    · simp [hn, hmic, h4, RTCORE_CATCH, throw_RTCError]
    · simp only [hn, hmic, h4, if_false, if_true, Bool.true_and]
      rcases hb : (eng.build s threadID numThreads (w.mxcsr tid)).1 with f | u
      · simp [RTCORE_CATCH]
      · simp [RTCORE_CATCH]

theorem rtcCommitThread_calls {S F : Type} (cfg : Build) (eng : Engine S F) (tid : Nat)
    (s : S) (threadID numThreads : Nat) (w : World F) (hn : numThreads ≠ 0)
    (hmic : cfg.MIC = false) :
    (rtcCommitThread cfg eng tid (some s) threadID numThreads w).2.1.calls =
      w.calls ++ [EngineCall.build threadID numThreads (flushModesOn (w.mxcsr tid))] ∧
    (rtcCommitThread cfg eng tid (some s) threadID numThreads w).2.2 =
      some (eng.build s threadID numThreads (flushModesOn (w.mxcsr tid))).2 := by
  rcases hb : (eng.build s threadID numThreads (flushModesOn (w.mxcsr tid))).1 with f | u
  · rw [rtcCommitThread_build_error cfg eng tid s threadID numThreads w f hn hmic hb]
    exact ⟨rfl, rfl⟩
  · rw [rtcCommitThread_build_ok cfg eng tid s threadID numThreads w hn hmic hb]
    exact ⟨rfl, rfl⟩

/-- The MXCSR value under which `rtcCommitThread` runs the engine build when
the calling thread's register holds `m`: `m` itself in a build for MIC, `m`
with flush-to-zero and denormals-are-zero switched on otherwise. -/
theorem rtcCommitThread_build {S F : Type} (cfg : Build) (eng : Engine S F) (tid : Nat)
    (s : S) (threadID numThreads : Nat) (w : World F) (hn : numThreads ≠ 0)
    (h4 : cfg.MIC = true → numThreads % 4 = 0 ∨ numThreads = 1) :
    (rtcCommitThread cfg eng tid (some s) threadID numThreads w).2.1.calls =
      w.calls ++ [EngineCall.build threadID numThreads
        (if cfg.MIC then w.mxcsr tid else flushModesOn (w.mxcsr tid))] ∧
    (rtcCommitThread cfg eng tid (some s) threadID numThreads w).2.2 =
      some (eng.build s threadID numThreads
        (if cfg.MIC then w.mxcsr tid else flushModesOn (w.mxcsr tid))).2 ∧
    (∀ f : Fault,
      (eng.build s threadID numThreads
        (if cfg.MIC then w.mxcsr tid else flushModesOn (w.mxcsr tid))).1 = Except.error f →
      (rtcCommitThread cfg eng tid (some s) threadID numThreads w).2.1.state =
        process_error tid (faultError f).1 (faultError f).2 w.state) ∧
    ((eng.build s threadID numThreads
        (if cfg.MIC then w.mxcsr tid else flushModesOn (w.mxcsr tid))).1 = Except.ok () →
      (rtcCommitThread cfg eng tid (some s) threadID numThreads w).2.1.state = w.state ∧
      (rtcCommitThread cfg eng tid (some s) threadID numThreads w).2.1.mxcsr = w.mxcsr) := by
  cases hmic : cfg.MIC
  · simp only [Bool.false_eq_true, if_false]
    rcases hb : (eng.build s threadID numThreads (flushModesOn (w.mxcsr tid))).1 with f | u
    · rw [rtcCommitThread_build_error cfg eng tid s threadID numThreads w f hn hmic hb]
      refine ⟨rfl, rfl, ?_, ?_⟩
      · intro g hg
        cases hg
        rfl
      · intro hg
        cases hg
    · rw [rtcCommitThread_build_ok cfg eng tid s threadID numThreads w hn hmic hb]
      refine ⟨rfl, rfl, ?_, ?_⟩
      · intro g hg
        cases hg
      · intro _
        exact ⟨rfl, rfl⟩
  · have hchk : (numThreads % 4 != 0 && numThreads != 1) = false := by
      rcases h4 hmic with h | h
      · simp [h]
      · simp [h]
    simp only [if_true]
    unfold rtcCommitThread rtcCommitThread_body
    simp only [hn, hmic, hchk, if_false, if_true, Bool.true_and, Bool.false_eq_true]
    rcases hb : (eng.build s threadID numThreads (w.mxcsr tid)).1 with f | u
    · refine ⟨rfl, rfl, ?_, ?_⟩
      · intro g hg
        cases hg
        rfl
      · intro hg
        cases hg
    · refine ⟨rfl, rfl, ?_, ?_⟩
      · intro g hg
        cases hg
      · intro _
        exact ⟨rfl, rfl⟩

theorem rtcCommit_build {S F : Type} (eng : Engine S F) (tid : Nat) (s : S) (w : World F) :
    (rtcCommit eng tid (some s) w).2.1.calls =
      w.calls ++ [EngineCall.build 0 0 (w.mxcsr tid)] ∧
    (rtcCommit eng tid (some s) w).2.2 = some (eng.build s 0 0 (w.mxcsr tid)).2 ∧
    (rtcCommit eng tid (some s) w).2.1.mxcsr = w.mxcsr ∧
    (∀ f : Fault, (eng.build s 0 0 (w.mxcsr tid)).1 = Except.error f →
      (rtcCommit eng tid (some s) w).2.1.state =
        process_error tid (faultError f).1 (faultError f).2 w.state) ∧
    ((eng.build s 0 0 (w.mxcsr tid)).1 = Except.ok () →
      (rtcCommit eng tid (some s) w).2.1.state = w.state) := by
  rw [rtcCommit_some]
  rcases hb : (eng.build s 0 0 (w.mxcsr tid)).1 with f | u
  · refine ⟨rfl, rfl, rfl, ?_, ?_⟩
    · intro g hg
      cases hg
      rfl
    · intro hg
      cases hg
  · refine ⟨rfl, rfl, rfl, ?_, ?_⟩
    · intro g hg
      cases hg
    · intro _
      rfl

/-- C5, as the code has it. `rtcCommit(scene)` invokes the engine build once,
with `(threadID, numThreads) = (0, 0)` under the caller's MXCSR value `m`, and
leaves every MXCSR register untouched. `rtcCommitThread(scene, 0, 1)` invokes
the engine build once, with `(0, 1)`, under `m` with flush-to-zero and
denormals-are-zero switched on in a build for a target other than MIC (under
`m` itself in a build for MIC). Each call leaves the scene in the state its
own build invocation produces, hands a fault of that invocation to
`process_error` on the calling thread, and leaves the global state alone when
the invocation returns normally. The two calls leave the same scene state
exactly when the two build invocations do, they leave the same global state
(error cells, callback calls, output) when the two invocations have the same
outcome, and for a null scene handle the two calls are equal. -/
theorem rtcCommit_vs_rtcCommitThread {S F : Type} (cfg : Build) (eng : Engine S F) (tid : Nat)
    (s : S) (w : World F) :
    ((rtcCommit eng tid (some s) w).2.1.calls =
        w.calls ++ [EngineCall.build 0 0 (w.mxcsr tid)] ∧
      (rtcCommit eng tid (some s) w).2.2 = some (eng.build s 0 0 (w.mxcsr tid)).2 ∧
      (rtcCommit eng tid (some s) w).2.1.mxcsr = w.mxcsr ∧
      (∀ f : Fault, (eng.build s 0 0 (w.mxcsr tid)).1 = Except.error f →
        (rtcCommit eng tid (some s) w).2.1.state =
          process_error tid (faultError f).1 (faultError f).2 w.state) ∧
      ((eng.build s 0 0 (w.mxcsr tid)).1 = Except.ok () →
        (rtcCommit eng tid (some s) w).2.1.state = w.state)) ∧
    ((rtcCommitThread cfg eng tid (some s) 0 1 w).2.1.calls =
        w.calls ++ [EngineCall.build 0 1
          (if cfg.MIC then w.mxcsr tid else flushModesOn (w.mxcsr tid))] ∧
      (rtcCommitThread cfg eng tid (some s) 0 1 w).2.2 =
        some (eng.build s 0 1
          (if cfg.MIC then w.mxcsr tid else flushModesOn (w.mxcsr tid))).2 ∧
      (∀ f : Fault,
        (eng.build s 0 1
          (if cfg.MIC then w.mxcsr tid else flushModesOn (w.mxcsr tid))).1 = Except.error f →
        (rtcCommitThread cfg eng tid (some s) 0 1 w).2.1.state =
          process_error tid (faultError f).1 (faultError f).2 w.state) ∧
      ((eng.build s 0 1
          (if cfg.MIC then w.mxcsr tid else flushModesOn (w.mxcsr tid))).1 = Except.ok () →
        (rtcCommitThread cfg eng tid (some s) 0 1 w).2.1.state = w.state)) ∧
    (cfg.MIC = false →
      (rtcCommitThread cfg eng tid (some s) 0 1 w).2.1.calls =
        w.calls ++ [EngineCall.build 0 1 (flushModesOn (w.mxcsr tid))] ∧
      flushModesOn (w.mxcsr tid) &&& MM_FLUSH_ZERO_MASK = MM_FLUSH_ZERO_ON ∧
      flushModesOn (w.mxcsr tid) &&& MM_DENORMALS_ZERO_MASK = MM_DENORMALS_ZERO_ON) ∧
    ((rtcCommit eng tid (some s) w).2.2 = (rtcCommitThread cfg eng tid (some s) 0 1 w).2.2 ↔
      (eng.build s 0 0 (w.mxcsr tid)).2 =
        (eng.build s 0 1 (if cfg.MIC then w.mxcsr tid else flushModesOn (w.mxcsr tid))).2) ∧
    ((eng.build s 0 0 (w.mxcsr tid)).1 =
        (eng.build s 0 1 (if cfg.MIC then w.mxcsr tid else flushModesOn (w.mxcsr tid))).1 →
      (rtcCommit eng tid (some s) w).2.1.state =
        (rtcCommitThread cfg eng tid (some s) 0 1 w).2.1.state) ∧
    rtcCommit eng tid none w = rtcCommitThread cfg eng tid none 0 1 w := by
  have hA := rtcCommit_build eng tid s w
  have hB := rtcCommitThread_build cfg eng tid s 0 1 w (by decide) (fun _ => Or.inr rfl)
  refine ⟨hA, ⟨hB.1, hB.2.1, hB.2.2.1, fun h => (hB.2.2.2 h).1⟩, ?_, ?_, ?_, rfl⟩
  · intro hmic
    have h := hB.1
    rw [hmic] at h
    exact ⟨h, flushModesOn_flush_zero _, flushModesOn_denormals_zero _⟩
  · rw [hA.2.1, hB.2.1]
    exact ⟨fun h => Option.some.inj h, fun h => congrArg some h⟩
  · intro hsame
    rcases hb : (eng.build s 0 0 (w.mxcsr tid)).1 with f | u
    · rw [hA.2.2.2.1 f hb, hB.2.2.1 f (hsame ▸ hb)]
    · rw [hA.2.2.2.2 hb, (hB.2.2.2 (hsame ▸ hb)).1]

/-- Witness for C5: on the engine that counts commits, whose build pays no
regard to its arguments, both calls commit scene `7` to scene `8`; on the
engine that remembers its build arguments `rtcCommit` leaves MXCSR alone. -/
theorem rtcCommit_vs_rtcCommitThread_witness :
    (rtcCommit countingEngine 0 (some 7) (World.init Int)).2.2 = some 8 ∧
    (rtcCommitThread Build.x86 countingEngine 0 (some 7) 0 1 (World.init Int)).2.2 = some 8 ∧
    (rtcCommit countingEngine 0 (some 7) (World.init Int)).2.1.state =
      (rtcCommitThread Build.x86 countingEngine 0 (some 7) 0 1 (World.init Int)).2.1.state ∧
    (rtcCommitThread Build.x86 recordingEngine 0 (some (9, 9, 9)) 0 1 (World.init Int)).2.1.calls
      = (World.init Int).calls ++ [EngineCall.build 0 1 (flushModesOn 8064)] := by
  have h := rtcCommit_vs_rtcCommitThread Build.x86 countingEngine 0 7 (World.init Int)
  have k := rtcCommit_vs_rtcCommitThread Build.x86 recordingEngine 0 (9, 9, 9) (World.init Int)
  refine ⟨h.1.2.1, ?_, h.2.2.2.2.1 rfl, (k.2.2.1 rfl).1⟩
  rw [← h.2.2.2.1.mpr rfl]
  exact h.1.2.1

/-- Counterexample to C5 as stated: on scene `(9, 9, 9)` of the engine that
remembers the arguments of its last build, with MXCSR at its default `0x1F80`,
`rtcCommit` runs the build with `(0, 0)` under `0x1F80 = 8064`, and
`rtcCommitThread(scene, 0, 1)` of an x86 build runs it with `(0, 1)` under
`0x9FC0 = 40896`; the resulting scene states differ. -/
theorem rtcCommit_ne_rtcCommitThread_0_1 :
    (rtcCommit recordingEngine 0 (some (9, 9, 9)) (World.init Int)).2.2
      = some (0, 0, 8064) ∧
    (rtcCommitThread Build.x86 recordingEngine 0 (some (9, 9, 9)) 0 1 (World.init Int)).2.2
      = some (0, 1, 40896) ∧
    (rtcCommit recordingEngine 0 (some (9, 9, 9)) (World.init Int)).2.2 ≠
      (rtcCommitThread Build.x86 recordingEngine 0 (some (9, 9, 9)) 0 1 (World.init Int)).2.2 := by
  refine ⟨by decide, by decide, by decide⟩

/-- C6, as the code has it. In a build for a target other than MIC, for every
MXCSR value `m` of the calling thread, every `numThreads ≠ 0` and every
outcome of the engine build, the build is invoked once, with the register at
`flushModesOn m`, in which the flush-to-zero and denormals-are-zero bits are
set (and which is `m ||| 0x8040` for a 32-bit `m`), and the registers of the
other threads are never changed; when that build returns normally, every
MXCSR register is as before after `rtcCommitThread` returns. When the call is
rejected before the build (null scene, or `numThreads = 0`), in every build,
no MXCSR register changes. In a build for MIC no MXCSR register changes
whatever the outcome, and the engine build, when the team size admits it,
runs under `m`. -/
theorem rtcCommitThread_mxcsr {S F : Type} (cfg : Build) (eng : Engine S F) (tid : Nat)
    (s : S) (threadID numThreads : Nat) (w : World F) :
    (cfg.MIC = false → numThreads ≠ 0 →
      (rtcCommitThread cfg eng tid (some s) threadID numThreads w).2.1.calls =
        w.calls ++ [EngineCall.build threadID numThreads (flushModesOn (w.mxcsr tid))] ∧
      (rtcCommitThread cfg eng tid (some s) threadID numThreads w).2.2 =
        some (eng.build s threadID numThreads (flushModesOn (w.mxcsr tid))).2 ∧
      (∀ u : Nat, u ≠ tid →
        (rtcCommitThread cfg eng tid (some s) threadID numThreads w).2.1.mxcsr u = w.mxcsr u) ∧
      ((eng.build s threadID numThreads (flushModesOn (w.mxcsr tid))).1 = Except.ok () →
        (rtcCommitThread cfg eng tid (some s) threadID numThreads w).2.1.mxcsr = w.mxcsr)) ∧
    flushModesOn (w.mxcsr tid) &&& MM_FLUSH_ZERO_MASK = MM_FLUSH_ZERO_ON ∧
    flushModesOn (w.mxcsr tid) &&& MM_DENORMALS_ZERO_MASK = MM_DENORMALS_ZERO_ON ∧
    (w.mxcsr tid < 2 ^ 32 → flushModesOn (w.mxcsr tid) = w.mxcsr tid ||| 0x8040) ∧
    (rtcCommitThread cfg eng tid none threadID numThreads w).2.1.mxcsr = w.mxcsr ∧
    (rtcCommitThread cfg eng tid (some s) threadID 0 w).2.1.mxcsr = w.mxcsr ∧
    (cfg.MIC = true →
      (rtcCommitThread cfg eng tid (some s) threadID numThreads w).2.1.mxcsr = w.mxcsr ∧
      (numThreads ≠ 0 → (numThreads % 4 = 0 ∨ numThreads = 1) →
        (rtcCommitThread cfg eng tid (some s) threadID numThreads w).2.1.calls =
          w.calls ++ [EngineCall.build threadID numThreads (w.mxcsr tid)])) := by
  refine ⟨?_, flushModesOn_flush_zero _, flushModesOn_denormals_zero _, flushModesOn_eq_or _,
    rfl, rtcCommitThread_zero_threads_mxcsr cfg eng tid s threadID w, ?_⟩
  · intro hmic hn
    have hc := rtcCommitThread_calls cfg eng tid s threadID numThreads w hn hmic
    refine ⟨hc.1, hc.2, ?_, ?_⟩
    · intro u hu
      rcases hb : (eng.build s threadID numThreads (flushModesOn (w.mxcsr tid))).1 with f | v
      · rw [rtcCommitThread_build_error cfg eng tid s threadID numThreads w f hn hmic hb]
        simp [setcsr, hu]
      · rw [rtcCommitThread_build_ok cfg eng tid s threadID numThreads w hn hmic hb]
    · intro hok
      rw [rtcCommitThread_build_ok cfg eng tid s threadID numThreads w hn hmic hok]
  · intro hmic
    refine ⟨rtcCommitThread_mic cfg eng tid s threadID numThreads w hmic, ?_⟩
    intro hn h4
    have h := (rtcCommitThread_build cfg eng tid s threadID numThreads w hn (fun _ => h4)).1
    rw [hmic] at h
    exact h

/-- Witness for C6: a two-thread team on the recording engine. In the x86
build the build ran under `0x9FC0 = 40896` and every register is as before
afterwards; in the MIC build of a four-thread team it ran under `0x1F80`. -/
theorem rtcCommitThread_mxcsr_witness :
    (rtcCommitThread Build.x86 recordingEngine 0 (some (9, 9, 9)) 1 2 (World.init Int)).2.2
      = some (1, 2, flushModesOn 8064) ∧
    (rtcCommitThread Build.x86 recordingEngine 0 (some (9, 9, 9)) 1 2 (World.init Int)).2.1.mxcsr
      = (World.init Int).mxcsr ∧
    (rtcCommitThread Build.mic recordingEngine 0 (some (9, 9, 9)) 1 4 (World.init Int)).2.1.calls
      = (World.init Int).calls ++ [EngineCall.build 1 4 8064] := by
  have h := (rtcCommitThread_mxcsr Build.x86 recordingEngine 0 (9, 9, 9) 1 2
    (World.init Int)).1 rfl (by decide)
  have k := (rtcCommitThread_mxcsr Build.mic recordingEngine 0 (9, 9, 9) 1 4
    (World.init Int)).2.2.2.2.2.2 rfl
  exact ⟨h.2.1, h.2.2.2 rfl, k.2 (by decide) (Or.inl (by decide))⟩

/-- Counterexample to C6 as stated. With MXCSR at `0x1F80 = 8064`: when the
engine build faults in an x86 build, the register of the calling thread holds
`0x9FC0 = 40896` after `rtcCommitThread` returns, not `8064`; and in a MIC
build the engine build runs under `8064`, in which neither the flush-to-zero
bit nor the denormals-are-zero bit is set. -/
theorem rtcCommitThread_mxcsr_not_always_restored :
    (World.init Int).mxcsr 0 = 8064 ∧
    (rtcCommitThread Build.x86 faultingEngine 0 (some 7) 0 1 (World.init Int)).2.1.mxcsr 0
      = 40896 ∧
    (rtcCommitThread Build.mic recordingEngine 0 (some (9, 9, 9)) 0 1 (World.init Int)).2.2
      = some (0, 1, 8064) ∧
    8064 &&& MM_FLUSH_ZERO_MASK = 0 ∧ 8064 &&& MM_DENORMALS_ZERO_MASK = 0 := by
  refine ⟨by decide, by decide, by decide, by decide, by decide⟩

/-! ## C7, C8, C9: transforms -/

theorem rtcSetTransform_recognised {S F : Type} (eng : Engine S F) (tid : Nat) (s : S)
    (geomID : Nat) (xfm : Nat → F) (w : World F) (T : AffineSpace3fa F)
    (layout : RTCMatrixType) (hid : geomID ≠ unsignedMinusOne)
    (hT : layout = RTC_MATRIX_ROW_MAJOR ∧
            T = ⟨⟨xfm 0, xfm 4, xfm 8⟩, ⟨xfm 1, xfm 5, xfm 9⟩, ⟨xfm 2, xfm 6, xfm 10⟩,
                 ⟨xfm 3, xfm 7, xfm 11⟩⟩ ∨
          layout = RTC_MATRIX_COLUMN_MAJOR ∧
            T = ⟨⟨xfm 0, xfm 1, xfm 2⟩, ⟨xfm 3, xfm 4, xfm 5⟩, ⟨xfm 6, xfm 7, xfm 8⟩,
                 ⟨xfm 9, xfm 10, xfm 11⟩⟩ ∨
          layout = RTC_MATRIX_COLUMN_MAJOR_ALIGNED16 ∧
            T = ⟨⟨xfm 0, xfm 1, xfm 2⟩, ⟨xfm 4, xfm 5, xfm 6⟩, ⟨xfm 8, xfm 9, xfm 10⟩,
                 ⟨xfm 12, xfm 13, xfm 14⟩⟩) :
    rtcSetTransform eng tid (some s) geomID layout (some xfm) w =
      RTCORE_CATCH tid ()
        ((eng.setTransform s geomID T).1,
         { w with calls := w.calls ++ [EngineCall.setTransform geomID T] },
         some (eng.setTransform s geomID T).2) := by
  rcases hT with ⟨hl, hT⟩ | ⟨hl, hT⟩ | ⟨hl, hT⟩ <;> subst hl <;> subst hT <;>
    simp [rtcSetTransform, rtcSetTransform_body, hid]

theorem RTCORE_CATCH_calls {α β F : Type} (tid : Nat) (fallthrough : α)
    (r : Except Fault α) (w : World F) (b : β) :
    (RTCORE_CATCH tid fallthrough (r, w, b)).2.1.calls = w.calls ∧
    (RTCORE_CATCH tid fallthrough (r, w, b)).2.2 = b := by
  cases r <;> exact ⟨rfl, rfl⟩

/-- C7: for every input array and each recognised layout (scene handle and
array non-null, geometry ID not `-1`), `rtcSetTransform` makes exactly one call
into the scene, `get_locked(geomID)->setTransform(T)`, and the components of
the basis vectors `vx, vy, vz` and of the translation `p` of `T` are the array
elements at the indices of the decode table: row-major `{0,4,8}`, `{1,5,9}`,
`{2,6,10}`, `{3,7,11}`; column-major `{0,1,2}`, `{3,4,5}`, `{6,7,8}`,
`{9,10,11}`; column-major with 16-float stride `{0,1,2}`, `{4,5,6}`,
`{8,9,10}`, `{12,13,14}`. The scene is left as that engine call leaves it. -/
theorem rtcSetTransform_decode_table {S F : Type} (eng : Engine S F) (tid : Nat) (s : S)
    (geomID : Nat) (xfm : Nat → F) (w : World F) (hid : geomID ≠ unsignedMinusOne) :
    ((rtcSetTransform eng tid (some s) geomID RTC_MATRIX_ROW_MAJOR (some xfm) w).2.1.calls =
        w.calls ++ [EngineCall.setTransform geomID
          ⟨⟨xfm 0, xfm 4, xfm 8⟩, ⟨xfm 1, xfm 5, xfm 9⟩, ⟨xfm 2, xfm 6, xfm 10⟩,
           ⟨xfm 3, xfm 7, xfm 11⟩⟩] ∧
      (rtcSetTransform eng tid (some s) geomID RTC_MATRIX_ROW_MAJOR (some xfm) w).2.2 =
        some (eng.setTransform s geomID
          ⟨⟨xfm 0, xfm 4, xfm 8⟩, ⟨xfm 1, xfm 5, xfm 9⟩, ⟨xfm 2, xfm 6, xfm 10⟩,
           ⟨xfm 3, xfm 7, xfm 11⟩⟩).2) ∧
    ((rtcSetTransform eng tid (some s) geomID RTC_MATRIX_COLUMN_MAJOR (some xfm) w).2.1.calls =
        w.calls ++ [EngineCall.setTransform geomID
          ⟨⟨xfm 0, xfm 1, xfm 2⟩, ⟨xfm 3, xfm 4, xfm 5⟩, ⟨xfm 6, xfm 7, xfm 8⟩,
           ⟨xfm 9, xfm 10, xfm 11⟩⟩] ∧
      (rtcSetTransform eng tid (some s) geomID RTC_MATRIX_COLUMN_MAJOR (some xfm) w).2.2 =
        some (eng.setTransform s geomID
          ⟨⟨xfm 0, xfm 1, xfm 2⟩, ⟨xfm 3, xfm 4, xfm 5⟩, ⟨xfm 6, xfm 7, xfm 8⟩,
           ⟨xfm 9, xfm 10, xfm 11⟩⟩).2) ∧
    ((rtcSetTransform eng tid (some s) geomID RTC_MATRIX_COLUMN_MAJOR_ALIGNED16
        (some xfm) w).2.1.calls =
        w.calls ++ [EngineCall.setTransform geomID
          ⟨⟨xfm 0, xfm 1, xfm 2⟩, ⟨xfm 4, xfm 5, xfm 6⟩, ⟨xfm 8, xfm 9, xfm 10⟩,
           ⟨xfm 12, xfm 13, xfm 14⟩⟩] ∧
      (rtcSetTransform eng tid (some s) geomID RTC_MATRIX_COLUMN_MAJOR_ALIGNED16
        (some xfm) w).2.2 =
        some (eng.setTransform s geomID
          ⟨⟨xfm 0, xfm 1, xfm 2⟩, ⟨xfm 4, xfm 5, xfm 6⟩, ⟨xfm 8, xfm 9, xfm 10⟩,
           ⟨xfm 12, xfm 13, xfm 14⟩⟩).2) := by
  refine ⟨?_, ?_, ?_⟩
  · rw [rtcSetTransform_recognised eng tid s geomID xfm w _ _ hid (Or.inl ⟨rfl, rfl⟩)]
    exact RTCORE_CATCH_calls _ _ _ _ _
  · rw [rtcSetTransform_recognised eng tid s geomID xfm w _ _ hid (Or.inr (Or.inl ⟨rfl, rfl⟩))]
    exact RTCORE_CATCH_calls _ _ _ _ _
  · rw [rtcSetTransform_recognised eng tid s geomID xfm w _ _ hid (Or.inr (Or.inr ⟨rfl, rfl⟩))]
    exact RTCORE_CATCH_calls _ _ _ _ _

/-- Witness for C7: the array with element `i` at index `i`, row-major,
geometry 2. -/
theorem rtcSetTransform_decode_table_witness :
    (rtcSetTransform recordingEngine 0 (some (9, 9, 9)) 2 RTC_MATRIX_ROW_MAJOR
        (some (fun i => (i : Int))) (World.init Int)).2.1.calls =
      (World.init Int).calls ++ [EngineCall.setTransform 2
        ⟨⟨0, 4, 8⟩, ⟨1, 5, 9⟩, ⟨2, 6, 10⟩, ⟨3, 7, 11⟩⟩] :=
  (rtcSetTransform_decode_table recordingEngine 0 (9, 9, 9) 2 (fun i => (i : Int))
    (World.init Int) (by decide)).1.1

/-- C8: for every logical affine matrix `M` (basis vectors `vx, vy, vz` and
translation `p`), every filler of the array beyond the matrix and of the
fourth float of each 16-byte column: `rtcSetTransform` called with the
row-major array of `M`, with the column-major array of `M`, and with the
column-major array of `M` with 16-float stride, each hands exactly `M` to
`get_locked(geomID)->setTransform`, and so the three calls have the same
result. -/
theorem rtcSetTransform_layouts_agree {S F : Type} (eng : Engine S F) (tid : Nat) (s : S)
    (geomID : Nat) (M : AffineSpace3fa F) (pad f0 f1 f2 f3 : F) (w : World F)
    (hid : geomID ≠ unsignedMinusOne) :
    (rtcSetTransform eng tid (some s) geomID RTC_MATRIX_ROW_MAJOR
        (some (arrayOf (rowMajor M) pad)) w).2.1.calls =
      w.calls ++ [EngineCall.setTransform geomID M] ∧
    (rtcSetTransform eng tid (some s) geomID RTC_MATRIX_COLUMN_MAJOR
        (some (arrayOf (columnMajor M) pad)) w).2.1.calls =
      w.calls ++ [EngineCall.setTransform geomID M] ∧
    (rtcSetTransform eng tid (some s) geomID RTC_MATRIX_COLUMN_MAJOR_ALIGNED16
        (some (arrayOf (columnMajorAligned16 M f0 f1 f2 f3) pad)) w).2.1.calls =
      w.calls ++ [EngineCall.setTransform geomID M] ∧
    rtcSetTransform eng tid (some s) geomID RTC_MATRIX_ROW_MAJOR
        (some (arrayOf (rowMajor M) pad)) w =
      rtcSetTransform eng tid (some s) geomID RTC_MATRIX_COLUMN_MAJOR
        (some (arrayOf (columnMajor M) pad)) w ∧
    rtcSetTransform eng tid (some s) geomID RTC_MATRIX_COLUMN_MAJOR
        (some (arrayOf (columnMajor M) pad)) w =
      rtcSetTransform eng tid (some s) geomID RTC_MATRIX_COLUMN_MAJOR_ALIGNED16
        (some (arrayOf (columnMajorAligned16 M f0 f1 f2 f3) pad)) w := by
  have hr := rtcSetTransform_recognised eng tid s geomID (arrayOf (rowMajor M) pad) w M
    RTC_MATRIX_ROW_MAJOR hid (Or.inl ⟨rfl, rfl⟩)
  have hc := rtcSetTransform_recognised eng tid s geomID (arrayOf (columnMajor M) pad) w M
    RTC_MATRIX_COLUMN_MAJOR hid (Or.inr (Or.inl ⟨rfl, rfl⟩))
  have ha := rtcSetTransform_recognised eng tid s geomID
    (arrayOf (columnMajorAligned16 M f0 f1 f2 f3) pad) w M
    RTC_MATRIX_COLUMN_MAJOR_ALIGNED16 hid (Or.inr (Or.inr ⟨rfl, rfl⟩))
  refine ⟨?_, ?_, ?_, ?_, ?_⟩
  · rw [hr]; exact (RTCORE_CATCH_calls _ _ _ _ _).1
  · rw [hc]; exact (RTCORE_CATCH_calls _ _ _ _ _).1
  · rw [ha]; exact (RTCORE_CATCH_calls _ _ _ _ _).1
  · rw [hr, hc]
  · rw [hc, ha]

/-- Witness for C8: the matrix with basis `(1,2,3)`, `(4,5,6)`, `(7,8,9)` and
translation `(10,11,12)`. -/
theorem rtcSetTransform_layouts_agree_witness :
    (rtcSetTransform recordingEngine 0 (some (9, 9, 9)) 2 RTC_MATRIX_COLUMN_MAJOR_ALIGNED16
        (some (arrayOf (columnMajorAligned16
          (⟨⟨1, 2, 3⟩, ⟨4, 5, 6⟩, ⟨7, 8, 9⟩, ⟨10, 11, 12⟩⟩ : AffineSpace3fa Int) 0 0 0 1) 0))
        (World.init Int)).2.1.calls =
      (World.init Int).calls ++ [EngineCall.setTransform 2
        ⟨⟨1, 2, 3⟩, ⟨4, 5, 6⟩, ⟨7, 8, 9⟩, ⟨10, 11, 12⟩⟩] :=
  (rtcSetTransform_layouts_agree recordingEngine 0 (9, 9, 9) 2
    ⟨⟨1, 2, 3⟩, ⟨4, 5, 6⟩, ⟨7, 8, 9⟩, ⟨10, 11, 12⟩⟩ 0 0 0 0 1 (World.init Int)
    (by decide)).2.2.1

/-- C9: for every layout value other than the three recognised ones (scene
handle and array non-null, geometry ID not `-1`), the body of
`rtcSetTransform` raises an `RTC_INVALID_OPERATION` library fault, and the call
returns with that code handed to `process_error` on the calling thread and
nothing else changed: no call into the scene is made (the geometry's
`setTransform` is not reached) and the scene object is as before. -/
theorem rtcSetTransform_unknown_layout {S F : Type} (eng : Engine S F) (tid : Nat) (s : S)
    (geomID : Nat) (layout : RTCMatrixType) (xfm : Nat → F) (w : World F)
    (hid : geomID ≠ unsignedMinusOne)
    (hrow : layout ≠ RTC_MATRIX_ROW_MAJOR) (hcol : layout ≠ RTC_MATRIX_COLUMN_MAJOR)
    (hal : layout ≠ RTC_MATRIX_COLUMN_MAJOR_ALIGNED16) :
    (rtcSetTransform_body eng (some s) geomID layout (some xfm) w).1 =
      Except.error (Fault.rtcore_error RTC_INVALID_OPERATION "Unknown matrix type") ∧
    rtcSetTransform eng tid (some s) geomID layout (some xfm) w =
      ((),
       { w with
         state := process_error tid RTC_INVALID_OPERATION (some "Unknown matrix type") w.state },
       some s) ∧
    (rtcSetTransform eng tid (some s) geomID layout (some xfm) w).2.1.calls = w.calls ∧
    (rtcSetTransform eng tid (some s) geomID layout (some xfm) w).2.2 = some s := by
  cases layout with
  | RTC_MATRIX_ROW_MAJOR => exact absurd rfl hrow
  | RTC_MATRIX_COLUMN_MAJOR => exact absurd rfl hcol
  | RTC_MATRIX_COLUMN_MAJOR_ALIGNED16 => exact absurd rfl hal
  | unrecognised raw =>
    have h : rtcSetTransform eng tid (some s) geomID (unrecognised raw) (some xfm) w =
        ((),
         { w with
           state := process_error tid RTC_INVALID_OPERATION (some "Unknown matrix type")
                      w.state },
         some s) := by
      simp [rtcSetTransform, rtcSetTransform_body, hid, throw_RTCError, RTCORE_CATCH, faultError]
    refine ⟨?_, h, ?_, ?_⟩
    · simp [rtcSetTransform_body, hid, throw_RTCError]
    · rw [h]
    · rw [h]

/-- Witness for C9: the layout value 3 on the recording engine. -/
theorem rtcSetTransform_unknown_layout_witness :
    (rtcSetTransform recordingEngine 0 (some (9, 9, 9)) 2 (unrecognised 3)
        (some (fun i => (i : Int))) (World.init Int)).2.1.calls = (World.init Int).calls :=
  (rtcSetTransform_unknown_layout recordingEngine 0 (9, 9, 9) 2 (unrecognised 3)
    (fun i => (i : Int)) (World.init Int) (by decide) (by decide) (by decide) (by decide)).2.2.1

/-! ## C10: the memory monitor -/

/-- C10, as the code has it: `memoryMonitor(bytes, post)` raises
`RTC_OUT_OF_MEMORY` exactly when a callback is registered, it returns false
for `(bytes, post)`, `bytes > 0`, and the build defines neither
`TASKING_LOCKSTEP` nor `TASKING_TBB_INTERNAL`; in every other case it returns
normally. In particular it never fails for `bytes < 0`, never fails without a
registered callback, and never fails in a build that defines one of the two
tasking switches. -/
theorem memoryMonitor_fails_iff (cfg : Build) (st : State) (bytes : Int) (post : Bool) :
    (memoryMonitor cfg st bytes post =
        Except.error (Fault.rtcore_error RTC_OUT_OF_MEMORY "memory monitor forced termination") ↔
      (∃ f, st.g_memory_monitor_function = some f ∧ f bytes post = false) ∧ bytes > 0 ∧
        cfg.TASKING_LOCKSTEP = false ∧ cfg.TASKING_TBB_INTERNAL = false) ∧
    (memoryMonitor cfg st bytes post =
        Except.error (Fault.rtcore_error RTC_OUT_OF_MEMORY "memory monitor forced termination") ∨
      memoryMonitor cfg st bytes post = Except.ok ()) ∧
    (bytes < 0 → memoryMonitor cfg st bytes post = Except.ok ()) ∧
    (st.g_memory_monitor_function = none → memoryMonitor cfg st bytes post = Except.ok ()) ∧
    (cfg.TASKING_LOCKSTEP = true ∨ cfg.TASKING_TBB_INTERNAL = true →
      memoryMonitor cfg st bytes post = Except.ok ()) := by
  unfold memoryMonitor
  rcases hf : st.g_memory_monitor_function with _ | f
  · simp
  · by_cases h0 : bytes = 0
    · subst h0; simp
    · by_cases hr : f bytes post = true
      · simp [h0, hr]
      · have hr' : f bytes post = false := by simpa using hr
        by_cases hl : cfg.TASKING_LOCKSTEP = true
        · simp [h0, hr', hl]
        · have hl' : cfg.TASKING_LOCKSTEP = false := by simpa using hl
          by_cases ht : cfg.TASKING_TBB_INTERNAL = true
          · simp [h0, hr', hl', ht]
          · have ht' : cfg.TASKING_TBB_INTERNAL = false := by simpa using ht
            by_cases hp : bytes > 0
            · simp [h0, hr', hl', ht', hp, throw_RTCError]
              omega
            · simp [h0, hr', hl', ht', hp]

/-- Witness for C10: a release of 16 bytes refused by the callback. -/
theorem memoryMonitor_fails_iff_witness :
    memoryMonitor Build.x86
      { State.init with g_memory_monitor_function := some (fun _ _ => false) } (-16) false
      = Except.ok () :=
  (memoryMonitor_fails_iff Build.x86
    { State.init with g_memory_monitor_function := some (fun _ _ => false) } (-16) false).2.2.1
    (by decide)

/-- Counterexample to C10 as stated: in a build that defines
`TASKING_LOCKSTEP`, a registered callback that returns false on a growth of 16
bytes does not make `memoryMonitor` fail; in the x86 build the same call
fails. -/
theorem memoryMonitor_lockstep_never_fails :
    Build.mic.TASKING_LOCKSTEP = true ∧
    memoryMonitor Build.mic
      { State.init with g_memory_monitor_function := some (fun _ _ => false) } 16 true
      = Except.ok () ∧
    memoryMonitor Build.x86
      { State.init with g_memory_monitor_function := some (fun _ _ => false) } 16 true
      = Except.error (Fault.rtcore_error RTC_OUT_OF_MEMORY "memory monitor forced termination") := by
  refine ⟨rfl, rfl, rfl⟩

/-! ## C11, C12: packet queries -/

theorem packetQuery_body_unsupported {S M R F : Type} (debug : Bool) (notSupported : String)
    (alignMask : Nat) (bytes : String) (isModified : S → Bool)
    (method : S → M → R → Except Fault Unit × S × R) (call : EngineCall F)
    (valid : Ref M) (scene : Option S) (ray : Ref R) (w : World F) :
    packetQuery_body false debug notSupported alignMask bytes isModified method call
        valid scene ray w =
      some (Except.error (Fault.rtcore_error RTC_INVALID_OPERATION notSupported), w, scene,
        ray.val) := by
  simp [packetQuery_body, throw_RTCError]

theorem packetQuery_body_modified {S M R F : Type} (notSupported : String)
    (alignMask : Nat) (bytes : String) (isModified : S → Bool)
    (method : S → M → R → Except Fault Unit × S × R) (call : EngineCall F)
    (valid : Ref M) (s : S) (ray : Ref R) (w : World F) (hmod : isModified s = true) :
    packetQuery_body true true notSupported alignMask bytes isModified method call
        valid (some s) ray w =
      some (Except.error (Fault.rtcore_error RTC_INVALID_OPERATION "scene got not committed"),
        w, some s, ray.val) := by
  simp [packetQuery_body, throw_RTCError, hmod]

theorem packetQuery_body_misaligned {S M R F : Type} (notSupported : String)
    (alignMask : Nat) (bytes : String) (isModified : S → Bool)
    (method : S → M → R → Except Fault Unit × S × R) (call : EngineCall F)
    (valid : Ref M) (s : S) (ray : Ref R) (w : World F) (hmod : isModified s = false)
    (hmis : valid.addr &&& alignMask ≠ 0 ∨ ray.addr &&& alignMask ≠ 0) :
    ∃ msg : String,
      packetQuery_body true true notSupported alignMask bytes isModified method call
          valid (some s) ray w =
        some (Except.error (Fault.rtcore_error RTC_INVALID_ARGUMENT msg), w, some s, ray.val) := by
  by_cases hv : valid.addr &&& alignMask = 0
  · have hr : ray.addr &&& alignMask ≠ 0 := by
      rcases hmis with h | h
      · exact absurd hv h
      · exact h
    exact ⟨"ray not aligned to " ++ bytes ++ " bytes", by
      simp [packetQuery_body, throw_RTCError, hmod, hv, hr]⟩
  · exact ⟨"mask not aligned to " ++ bytes ++ " bytes", by
      simp [packetQuery_body, throw_RTCError, hmod, hv]⟩

theorem packetQuery_body_verified {S M R F : Type} (notSupported : String)
    (alignMask : Nat) (bytes : String) (isModified : S → Bool)
    (method : S → M → R → Except Fault Unit × S × R) (call : EngineCall F)
    (valid : Ref M) (s : S) (ray : Ref R) (w : World F) (hmod : isModified s = false)
    (hv : valid.addr &&& alignMask = 0) (hr : ray.addr &&& alignMask = 0) :
    packetQuery_body true true notSupported alignMask bytes isModified method call
        valid (some s) ray w =
      some ((method s valid.val ray.val).1, { w with calls := w.calls ++ [call] },
        some (method s valid.val ray.val).2.1, (method s valid.val ray.val).2.2) := by
  simp [packetQuery_body, hmod, hv, hr]

theorem packetQuery_body_unverified {S M R F : Type} (notSupported : String)
    (alignMask : Nat) (bytes : String) (isModified : S → Bool)
    (method : S → M → R → Except Fault Unit × S × R) (call : EngineCall F)
    (valid : Ref M) (s : S) (ray : Ref R) (w : World F) :
    packetQuery_body true false notSupported alignMask bytes isModified method call
        valid (some s) ray w =
      some ((method s valid.val ray.val).1, { w with calls := w.calls ++ [call] },
        some (method s valid.val ray.val).2.1, (method s valid.val ray.val).2.2) := by
  simp [packetQuery_body]

theorem and_alignMask_eq_mod (addr : Nat) (W : Width) :
    (addr &&& 0x0F = addr % 16) ∧ (addr &&& 0x1F = addr % 32) ∧ (addr &&& 0x3F = addr % 64) ∧
    (W.lanes * 4 = 16 ∨ W.lanes * 4 = 32 ∨ W.lanes * 4 = 64) := by
  refine ⟨Nat.and_pow_two_sub_one_eq_mod addr 4, Nat.and_pow_two_sub_one_eq_mod addr 5,
    Nat.and_pow_two_sub_one_eq_mod addr 6, ?_⟩
  cases W <;> simp [Width.lanes]

/-- C11: for every width `W` of 4, 8, 16 that the build does not support, and
for both `rtcIntersectW` and `rtcOccludedW`: for every mask, every scene
handle (null included) and every ray packet the call returns with
`RTC_INVALID_OPERATION` handed to `process_error` on the calling thread and
nothing else changed. The log of calls into the scene is as before, the scene
is as before, and the ray packet is as before. -/
theorem rtcPacketQuery_unsupported {S M R F : Type} (cfg : Build) (eng : QueryEngine S M R)
    (tid : Nat) (occluded : Bool) (W : Width) (valid : Ref M) (scene : Option S) (ray : Ref R)
    (w : World F) (hsup : cfg.supports W = false) :
    ∃ msg : String,
      rtcPacketQuery cfg eng tid occluded W valid scene ray w =
        some ((),
          { w with state := process_error tid RTC_INVALID_OPERATION (some msg) w.state },
          scene, ray.val) := by
  cases occluded <;> cases W <;>
    simp only [Build.supports] at hsup <;>
    simp only [rtcPacketQuery, rtcIntersect4, rtcIntersect8, rtcIntersect16, rtcOccluded4,
      rtcOccluded8, rtcOccluded16, hsup, packetQuery_body_unsupported, Option.map_some'] <;>
    exact ⟨_, rfl⟩

/-- Witness for C11: `rtcOccluded16` in the x86 build, which has no 16-wide
target, with a null scene handle. -/
theorem rtcPacketQuery_unsupported_witness :
    ∃ msg : String,
      rtcPacketQuery Build.x86 maskCopyEngine 0 true Width.w16 ⟨64, [-1]⟩ none ⟨128, [5]⟩
          (World.init Int) =
        some ((),
          { World.init Int with
            state := process_error 0 RTC_INVALID_OPERATION (some msg) (World.init Int).state },
          none, [5]) :=
  rtcPacketQuery_unsupported Build.x86 maskCopyEngine 0 true Width.w16 ⟨64, [-1]⟩ none
    ⟨128, [5]⟩ (World.init Int) rfl

/-- C12: in a `DEBUG` build, for every supported width `W` of 4, 8, 16, for
both `rtcIntersectW` and `rtcOccludedW` and every (non-null) scene: when the
scene is modified (not committed) the call ends with `RTC_INVALID_OPERATION`
handed to `process_error` and the scene method is not called; when the scene
is committed and the mask address or the ray address is not a multiple of
`W*4` the call ends with `RTC_INVALID_ARGUMENT` in the same way; when the
scene is committed and both addresses are multiples of `W*4` the result is
that of the wrapped scene method, so the verification adds no error. In a
build without `DEBUG` the result is that of the wrapped scene method for
every scene state and every pair of addresses. -/
theorem rtcPacketQuery_verification {S M R F : Type} (cfg : Build) (eng : QueryEngine S M R)
    (tid : Nat) (occluded : Bool) (W : Width) (valid : Ref M) (s : S) (ray : Ref R)
    (w : World F) (hdbg : cfg.DEBUG = true) (hsup : cfg.supports W = true) :
    (eng.isModified s = true →
      rtcPacketQuery cfg eng tid occluded W valid (some s) ray w =
        some ((),
          { w with
            state := process_error tid RTC_INVALID_OPERATION (some "scene got not committed")
                       w.state },
          some s, ray.val)) ∧
    (eng.isModified s = false →
      (valid.addr % (W.lanes * 4) ≠ 0 ∨ ray.addr % (W.lanes * 4) ≠ 0) →
      ∃ msg : String,
        rtcPacketQuery cfg eng tid occluded W valid (some s) ray w =
          some ((),
            { w with state := process_error tid RTC_INVALID_ARGUMENT (some msg) w.state },
            some s, ray.val)) ∧
    (eng.isModified s = false →
      valid.addr % (W.lanes * 4) = 0 → ray.addr % (W.lanes * 4) = 0 →
      rtcPacketQuery cfg eng tid occluded W valid (some s) ray w =
        some (RTCORE_CATCH tid ()
          ((eng.method occluded W s valid.val ray.val).1,
           { w with
             calls := w.calls ++
                        [EngineCall.packetQuery occluded W.lanes valid.addr ray.addr] },
           some (eng.method occluded W s valid.val ray.val).2.1,
           (eng.method occluded W s valid.val ray.val).2.2))) ∧
    (∀ cfg' : Build, cfg'.DEBUG = false → cfg'.supports W = true →
      rtcPacketQuery cfg' eng tid occluded W valid (some s) ray w =
        some (RTCORE_CATCH tid ()
          ((eng.method occluded W s valid.val ray.val).1,
           { w with
             calls := w.calls ++
                        [EngineCall.packetQuery occluded W.lanes valid.addr ray.addr] },
           some (eng.method occluded W s valid.val ray.val).2.1,
           (eng.method occluded W s valid.val ray.val).2.2))) := by
  have hv := and_alignMask_eq_mod valid.addr W
  have hr := and_alignMask_eq_mod ray.addr W
  refine ⟨?_, ?_, ?_, ?_⟩
  · intro hmod
    cases occluded <;> cases W <;>
      simp only [Build.supports] at hsup <;>
      simp only [rtcPacketQuery, rtcIntersect4, rtcIntersect8, rtcIntersect16, rtcOccluded4,
        rtcOccluded8, rtcOccluded16, hsup, hdbg,
        packetQuery_body_modified _ _ _ _ _ _ _ _ _ _ hmod, Option.map_some'] <;>
      rfl
  · intro hmod hmis
    cases occluded <;> cases W <;>
      simp only [Build.supports] at hsup <;>
      simp only [Width.lanes, Nat.reduceMul] at hmis <;>
      simp only [rtcPacketQuery, rtcIntersect4, rtcIntersect8, rtcIntersect16, rtcOccluded4,
        rtcOccluded8, rtcOccluded16, hsup, hdbg] <;>
      first
      | (obtain ⟨msg, h⟩ := packetQuery_body_misaligned (F := F) "rtcIntersect4 not supported"
            0x0F "16" eng.isModified eng.intersect4
            (EngineCall.packetQuery false 4 valid.addr ray.addr) valid s ray w hmod
            (by rw [hv.1, hr.1]; exact hmis)
         exact ⟨msg, by rw [h]; rfl⟩)
      | (obtain ⟨msg, h⟩ := packetQuery_body_misaligned (F := F) "rtcIntersect8 not supported"
            0x1F "32" eng.isModified eng.intersect8
            (EngineCall.packetQuery false 8 valid.addr ray.addr) valid s ray w hmod
            (by rw [hv.2.1, hr.2.1]; exact hmis)
         exact ⟨msg, by rw [h]; rfl⟩)
      | (obtain ⟨msg, h⟩ := packetQuery_body_misaligned (F := F) "rtcIntersect16 not supported"
            0x3F "64" eng.isModified eng.intersect16
            (EngineCall.packetQuery false 16 valid.addr ray.addr) valid s ray w hmod
            (by rw [hv.2.2.1, hr.2.2.1]; exact hmis)
         exact ⟨msg, by rw [h]; rfl⟩)
      | (obtain ⟨msg, h⟩ := packetQuery_body_misaligned (F := F) "rtcOccluded4 not supported"
            0x0F "16" eng.isModified eng.occluded4
            (EngineCall.packetQuery true 4 valid.addr ray.addr) valid s ray w hmod
            (by rw [hv.1, hr.1]; exact hmis)
         exact ⟨msg, by rw [h]; rfl⟩)
      | (obtain ⟨msg, h⟩ := packetQuery_body_misaligned (F := F) "rtcOccluded8 not supported"
            0x1F "32" eng.isModified eng.occluded8
            (EngineCall.packetQuery true 8 valid.addr ray.addr) valid s ray w hmod
            (by rw [hv.2.1, hr.2.1]; exact hmis)
         exact ⟨msg, by rw [h]; rfl⟩)
      | (obtain ⟨msg, h⟩ := packetQuery_body_misaligned (F := F) "rtcOccluded16 not supported"
            0x3F "64" eng.isModified eng.occluded16
            (EngineCall.packetQuery true 16 valid.addr ray.addr) valid s ray w hmod
            (by rw [hv.2.2.1, hr.2.2.1]; exact hmis)
         exact ⟨msg, by rw [h]; rfl⟩)
  · intro hmod hva hra
    cases occluded <;> cases W <;>
      simp only [Build.supports] at hsup <;>
      simp only [Width.lanes, Nat.reduceMul] at hva hra <;>
      simp only [rtcPacketQuery, rtcIntersect4, rtcIntersect8, rtcIntersect16, rtcOccluded4,
        rtcOccluded8, rtcOccluded16, hsup, hdbg] <;>
      first
      | (rw [packetQuery_body_verified _ _ _ _ _ _ _ _ _ _ hmod
            (by rw [hv.1]; exact hva) (by rw [hr.1]; exact hra)]; rfl)
      | (rw [packetQuery_body_verified _ _ _ _ _ _ _ _ _ _ hmod
            (by rw [hv.2.1]; exact hva) (by rw [hr.2.1]; exact hra)]; rfl)
      | (rw [packetQuery_body_verified _ _ _ _ _ _ _ _ _ _ hmod
            (by rw [hv.2.2.1]; exact hva) (by rw [hr.2.2.1]; exact hra)]; rfl)
  · intro cfg' hdbg' hsup'
    cases occluded <;> cases W <;>
      simp only [Build.supports] at hsup' <;>
      simp only [rtcPacketQuery, rtcIntersect4, rtcIntersect8, rtcIntersect16, rtcOccluded4,
        rtcOccluded8, rtcOccluded16, hsup', hdbg', packetQuery_body_unverified,
        Option.map_some'] <;>
      rfl

/-- Witness for C12: `rtcIntersect8` in the x86 `DEBUG` build on a modified
scene. -/
theorem rtcPacketQuery_verification_witness :
    rtcPacketQuery Build.x86Debug maskCopyEngine 0 false Width.w8 ⟨32, [-1]⟩ (some true)
        ⟨64, [5]⟩ (World.init Int) =
      some ((),
        { World.init Int with
          state := process_error 0 RTC_INVALID_OPERATION (some "scene got not committed")
                     (World.init Int).state },
        some true, [5]) :=
  (rtcPacketQuery_verification Build.x86Debug maskCopyEngine 0 false Width.w8 ⟨32, [-1]⟩ true
    ⟨64, [5]⟩ (World.init Int) rfl rfl).1 rfl

/-! ## C13: the legacy singleton device -/

theorem rtcInit_present {D F : Type} (newDevice : Option String → Except Fault D) (tid : Nat)
    (cfg : Option String) (w : World F) (reg : Registry D) (h : reg.g_device.isSome = true) :
    (rtcInit_body newDevice cfg w reg).1 =
      Except.error (Fault.rtcore_error RTC_INVALID_OPERATION "already initialized") ∧
    rtcInit newDevice tid cfg w reg =
      ((),
       { w with
         state := process_error tid RTC_INVALID_OPERATION (some "already initialized") w.state },
       reg) := by
  simp [rtcInit, rtcInit_body, h, throw_RTCError, RTCORE_CATCH, faultError]

theorem rtcExit_absent {D F : Type} (tid : Nat) (w : World F) (reg : Registry D)
    (h : reg.g_device = none) :
    (rtcExit_body w reg).1 =
      Except.error (Fault.rtcore_error RTC_INVALID_OPERATION
        "rtcInit has to get called before rtcExit") ∧
    rtcExit tid w reg =
      ((),
       { w with
         state := process_error tid RTC_INVALID_OPERATION
                    (some "rtcInit has to get called before rtcExit") w.state },
       reg) := by
  simp [rtcExit, rtcExit_body, h, throw_RTCError, RTCORE_CATCH, faultError]

/-- What a legacy call does to the registry, by whether its body succeeds. -/
theorem LegacyCall_run_registry {D F : Type} (newDevice : Option String → Except Fault D)
    (tid : Nat) (c : LegacyCall) (w : World F) (reg : Registry D) :
    ((c.body newDevice w reg).1.toBool = true →
      reg.g_device.isSome = !c.isInit ∧
      (c.run newDevice tid (w, reg)).2.g_device.isSome = c.isInit ∧
      (c.run newDevice tid (w, reg)).2.live = if c.isInit then reg.live + 1 else reg.live - 1) ∧
    ((c.body newDevice w reg).1.toBool = false → (c.run newDevice tid (w, reg)).2 = reg) := by
  cases c with
  | init cfg =>
    by_cases hp : reg.g_device.isSome = true
    · simp [LegacyCall.body, LegacyCall.run, rtcInit, rtcInit_body, hp, throw_RTCError,
        RTCORE_CATCH, Except.toBool]
    · have hp' : reg.g_device.isSome = false := by simpa using hp
      rcases hn : newDevice cfg with f | d
      · simp [LegacyCall.body, LegacyCall.run, rtcInit, rtcInit_body, hp', hn, RTCORE_CATCH,
          Except.toBool]
      · simp [LegacyCall.body, LegacyCall.run, rtcInit, rtcInit_body, hp', hn, RTCORE_CATCH,
          Except.toBool, LegacyCall.isInit]
  | exit =>
    by_cases hp : reg.g_device.isSome = true
    · simp [LegacyCall.body, LegacyCall.run, rtcExit, rtcExit_body, hp, RTCORE_CATCH,
        Except.toBool, LegacyCall.isInit]
    · have hp' : reg.g_device.isSome = false := by simpa using hp
      simp [LegacyCall.body, LegacyCall.run, rtcExit, rtcExit_body, hp', throw_RTCError,
        RTCORE_CATCH, Except.toBool]

theorem runLegacy_live {D F : Type} (newDevice : Option String → Except Fault D)
    (cs : List (Nat × LegacyCall)) (st : World F × Registry D)
    (hinv : st.2.live = if st.2.g_device.isSome then 1 else 0) :
    (runLegacy newDevice cs st).2.live =
      if (runLegacy newDevice cs st).2.g_device.isSome then 1 else 0 := by
  induction cs generalizing st with
  | nil => exact hinv
  | cons tc cs ih =>
    obtain ⟨tid, c⟩ := tc
    obtain ⟨w, reg⟩ := st
    simp only [runLegacy]
    apply ih
    have h := LegacyCall_run_registry newDevice tid c w reg
    by_cases hok : (c.body newDevice w reg).1.toBool = true
    · obtain ⟨h1, h2, h3⟩ := h.1 hok
      simp only at hinv
      rw [h3, h2, hinv, h1]
      cases c.isInit <;> simp
    · have hok' : (c.body newDevice w reg).1.toBool = false := by simpa using hok
      rw [h.2 hok']
      exact hinv

theorem successTrace_alternates {D F : Type} (newDevice : Option String → Except Fault D)
    (cs : List (Nat × LegacyCall)) (st : World F × Registry D) :
    alternates (!st.2.g_device.isSome) (successTrace newDevice cs st) = true := by
  induction cs generalizing st with
  | nil => rfl
  | cons tc cs ih =>
    obtain ⟨tid, c⟩ := tc
    obtain ⟨w, reg⟩ := st
    have h := LegacyCall_run_registry newDevice tid c w reg
    have ih' := ih (c.run newDevice tid (w, reg))
    simp only [successTrace]
    by_cases hok : (c.body newDevice w reg).1.toBool = true
    · obtain ⟨h1, h2, _⟩ := h.1 hok
      rw [h2] at ih'
      simp only [hok, if_true, List.singleton_append, alternates, h1, Bool.not_not,
        beq_self_eq_true, Bool.true_and]
      exact ih'
    · have hok' : (c.body newDevice w reg).1.toBool = false := by simpa using hok
      rw [h.2 hok'] at ih'
      simp only [hok', Bool.false_eq_true, if_false, List.nil_append]
      exact ih'

/-- C13. Legacy singleton device. With a device present `rtcInit(cfg)` fails
with `RTC_INVALID_OPERATION` and leaves the registry (the device) as it was;
with no device `rtcExit()` fails with `RTC_INVALID_OPERATION`. A call succeeds
only in the alternating position (`rtcInit` when no device exists, `rtcExit`
when one exists), so over every sequence of calls started with no device the
successful calls alternate beginning with an `rtcInit`, and after every prefix
of the sequence the number of live device objects is one when `g_device` is
set and zero otherwise, hence at most one. -/
theorem legacy_singleton_device {D F : Type} (newDevice : Option String → Except Fault D)
    (tid : Nat) (cfg : Option String) (w : World F) (reg : Registry D)
    (calls : List (Nat × LegacyCall)) :
    (reg.g_device.isSome = true →
      (rtcInit_body newDevice cfg w reg).1 =
        Except.error (Fault.rtcore_error RTC_INVALID_OPERATION "already initialized") ∧
      rtcInit newDevice tid cfg w reg =
        ((),
         { w with
           state := process_error tid RTC_INVALID_OPERATION (some "already initialized")
                      w.state },
         reg)) ∧
    (reg.g_device = none →
      (rtcExit_body w reg).1 =
        Except.error (Fault.rtcore_error RTC_INVALID_OPERATION
          "rtcInit has to get called before rtcExit") ∧
      rtcExit tid w reg =
        ((),
         { w with
           state := process_error tid RTC_INVALID_OPERATION
                      (some "rtcInit has to get called before rtcExit") w.state },
         reg)) ∧
    (∀ c : LegacyCall, (c.body newDevice w reg).1.toBool = true →
      reg.g_device.isSome = !c.isInit) ∧
    alternates true (successTrace newDevice calls (w, Registry.init D)) = true ∧
    (∀ n : Nat,
      (runLegacy newDevice (calls.take n) (w, Registry.init D)).2.live =
        (if (runLegacy newDevice (calls.take n) (w, Registry.init D)).2.g_device.isSome
         then 1 else 0) ∧
      (runLegacy newDevice (calls.take n) (w, Registry.init D)).2.live ≤ 1) := by
  refine ⟨rtcInit_present newDevice tid cfg w reg, rtcExit_absent tid w reg, ?_, ?_, ?_⟩
  · intro c hc
    exact ((LegacyCall_run_registry newDevice tid c w reg).1 hc).1
  · exact successTrace_alternates newDevice calls (w, Registry.init D)
  · intro n
    have h := runLegacy_live newDevice (calls.take n) (w, Registry.init D) rfl
    refine ⟨h, ?_⟩
    rw [h]
    split <;> simp

theorem legacy_singleton_device_witness :
    (rtcInit exampleDevice 3 (some "threads=2") (World.init Int)
        { g_device := some none, live := 1 }).2.2.g_device = some none ∧
    (rtcExit 3 (World.init Int) (Registry.init (Option String))).2.1.state.error 3 =
      RTC_INVALID_OPERATION ∧
    (runLegacy exampleDevice
        ([(0, LegacyCall.init none), (1, LegacyCall.init (some "x")), (0, LegacyCall.exit),
          (2, LegacyCall.exit), (0, LegacyCall.init (some "bad")),
          (0, LegacyCall.init (some "y"))].take 6)
        (World.init Int, Registry.init (Option String))).2.live ≤ 1 ∧
    successTrace exampleDevice
        [(0, LegacyCall.init none), (1, LegacyCall.init (some "x")), (0, LegacyCall.exit),
         (2, LegacyCall.exit), (0, LegacyCall.init (some "bad")),
         (0, LegacyCall.init (some "y"))]
        (World.init Int, Registry.init (Option String)) = [true, false, true] := by
  have h1 := legacy_singleton_device exampleDevice 3 (some "threads=2") (World.init Int)
    { g_device := some none, live := 1 }
    [(0, LegacyCall.init none), (1, LegacyCall.init (some "x")), (0, LegacyCall.exit),
     (2, LegacyCall.exit), (0, LegacyCall.init (some "bad")), (0, LegacyCall.init (some "y"))]
  have h2 := legacy_singleton_device exampleDevice 3 none (World.init Int)
    (Registry.init (Option String)) []
  refine ⟨?_, ?_, (h1.2.2.2.2 6).2, ?_⟩
  · rw [(h1.1 rfl).2]
  · rw [(h2.2.1 rfl).2]
    rfl
  · rfl

/-! ## C14: parameters -/

theorem clamp_toNat (val : Int) :
    (((max ((1024 * 1024 : Nat) : Int) val).toNat : Nat) : Int) = max 1048576 val ∧
    1048576 ≤ (max ((1024 * 1024 : Nat) : Int) val).toNat ∧
    (1048576 ≤ val → (((max ((1024 * 1024 : Nat) : Int) val).toNat : Nat) : Int) = val) := by
  have h0 : ((1024 * 1024 : Nat) : Int) = 1048576 := by norm_num
  rw [h0]
  have h1 : (0 : Int) ≤ max 1048576 val := le_trans (by norm_num) (le_max_left _ _)
  have h2 : (((max (1048576 : Int) val).toNat : Nat) : Int) = max 1048576 val :=
    Int.toNat_of_nonneg h1
  refine ⟨h2, ?_, ?_⟩
  · have h3 : (1048576 : Int) ≤ max 1048576 val := le_max_left _ _
    omega
  · intro h
    rw [h2]
    exact max_eq_right h

/-- C14. For every value `val`, `rtcSetParameter1i` with the software cache
size parameter calls `resizeTessellationCache` exactly once, with
`max(1048576, val)`: a size never below 1048576 and equal to `val` when `val`
is at least 1048576; the cache becomes what that resize makes of it, and when
the resize returns normally no error is recorded. With any other parameter
the call records `RTC_INVALID_ARGUMENT` and neither calls the resize nor
changes the cache. -/
theorem rtcSetParameter1i_clamp {C F : Type}
    (resizeTessellationCache : C → Nat → Except Fault Unit × C) (tid : Nat) (val : Int)
    (w : World F) (cache : C) :
    (∃ n : Nat,
      (n : Int) = max 1048576 val ∧ 1048576 ≤ n ∧ (1048576 ≤ val → (n : Int) = val) ∧
      (rtcSetParameter1i resizeTessellationCache tid RTC_SOFTWARE_CACHE_SIZE val w cache).2.1.calls
        = w.calls ++ [EngineCall.resizeTessellationCache n] ∧
      (rtcSetParameter1i resizeTessellationCache tid RTC_SOFTWARE_CACHE_SIZE val w cache).2.2
        = (resizeTessellationCache cache n).2 ∧
      ((resizeTessellationCache cache n).1 = Except.ok () →
        (rtcSetParameter1i resizeTessellationCache tid RTC_SOFTWARE_CACHE_SIZE val w
          cache).2.1.state = w.state)) ∧
    (∀ raw : Nat,
      rtcSetParameter1i resizeTessellationCache tid (RTCParameter.other raw) val w cache =
        ((),
         { w with
           state := process_error tid RTC_INVALID_ARGUMENT (some "unknown parameter") w.state },
         cache)) := by
  refine ⟨⟨(max ((1024 * 1024 : Nat) : Int) val).toNat, (clamp_toNat val).1,
    (clamp_toNat val).2.1, (clamp_toNat val).2.2, ?_, ?_, ?_⟩, ?_⟩
  · simp only [rtcSetParameter1i, rtcSetParameter1i_body]
    exact (RTCORE_CATCH_calls tid () _ _ _).1
  · simp only [rtcSetParameter1i, rtcSetParameter1i_body]
    exact (RTCORE_CATCH_calls tid () _ _ _).2
  · intro hok
    simp only [rtcSetParameter1i, rtcSetParameter1i_body, RTCORE_CATCH, hok]
  · intro raw
    simp [rtcSetParameter1i, rtcSetParameter1i_body, throw_RTCError, RTCORE_CATCH, faultError]

theorem rtcSetParameter1i_clamp_witness :
    (rtcSetParameter1i exampleResize 0 RTC_SOFTWARE_CACHE_SIZE (-5) (World.init Int) 77).2.2
        = 1048576 ∧
    (rtcSetParameter1i exampleResize 0 RTC_SOFTWARE_CACHE_SIZE 4000000 (World.init Int) 77).2.2
        = 4000000 ∧
    (rtcSetParameter1i exampleResize 0 RTC_SOFTWARE_CACHE_SIZE 4000000
        (World.init Int) 77).2.1.state = (World.init Int).state ∧
    (rtcSetParameter1i exampleResize 0 (RTCParameter.other 9) 4000000 (World.init Int) 77).2.2
        = 77 := by
  obtain ⟨⟨n, hn, _, _, _, hc, _⟩, _⟩ :=
    rtcSetParameter1i_clamp exampleResize 0 (-5) (World.init Int) 77
  obtain ⟨⟨m, _, _, hm, _, hc2, hs⟩, ho⟩ :=
    rtcSetParameter1i_clamp exampleResize 0 4000000 (World.init Int) 77
  have hn1 : n = 1048576 := by
    have : (n : Int) = 1048576 := by rw [hn]; decide
    exact_mod_cast this
  have hm1 : m = 4000000 := by
    have : (m : Int) = 4000000 := hm (by decide)
    exact_mod_cast this
  refine ⟨?_, ?_, hs rfl, ?_⟩
  · rw [hc, hn1]; rfl
  · rw [hc2, hm1]; rfl
  · rw [ho 9]

/-! ## C15: scene creation -/

theorem or_and_right_self (a b : Nat) : (a ||| b) &&& b = b := by
  apply Nat.eq_of_testBit_eq
  intro i
  rw [Nat.testBit_and, Nat.testBit_or]
  cases a.testBit i <;> cases b.testBit i <;> rfl

/-- The flags the scene constructor receives. -/
theorem defaulted_flags (bits : SceneFlagBits) (flags : Nat) :
    ((isCoherent bits flags = false ∧ isIncoherent bits flags = false) →
      (if !isCoherent bits flags && !isIncoherent bits flags then
         flags ||| bits.RTC_SCENE_INCOHERENT else flags) = flags ||| bits.RTC_SCENE_INCOHERENT) ∧
    ((isCoherent bits flags = true ∨ isIncoherent bits flags = true) →
      (if !isCoherent bits flags && !isIncoherent bits flags then
         flags ||| bits.RTC_SCENE_INCOHERENT else flags) = flags) ∧
    (isCoherent bits
        (if !isCoherent bits flags && !isIncoherent bits flags then
           flags ||| bits.RTC_SCENE_INCOHERENT else flags) = true ∨
     isIncoherent bits
        (if !isCoherent bits flags && !isIncoherent bits flags then
           flags ||| bits.RTC_SCENE_INCOHERENT else flags) = true) := by
  refine ⟨?_, ?_, ?_⟩
  · rintro ⟨hc, hi⟩
    simp [hc, hi]
  · rintro (hc | hi)
    · simp [hc]
    · simp [hi]
  · cases hc : isCoherent bits flags
    · cases hi : isIncoherent bits flags
      · right
        simp [isIncoherent, or_and_right_self]
      · right
        simpa using hi
    · left
      simpa using hc

/-- C15. For every scene-flags value `flags`, `rtcNewScene` and `rtcNewScene2`
(given a device handle) call the scene constructor exactly once, with flags
`f1`: when `flags` has neither the Coherent nor the Incoherent flag, `f1` is
`flags | RTC_SCENE_INCOHERENT`, which agrees with `flags` on every bit outside
the Incoherent flag; when `flags` has at least one of the two, `f1` is `flags`.
In both cases `f1` has a coherency flag set, and the handle returned is the
scene the constructor made with `f1`. -/
theorem rtcNewScene_default_incoherent {D S F : Type} (bits : SceneFlagBits)
    (newScene : Option D → Nat → Nat → Except Fault S) (tid : Nat) (g_device : Option D)
    (d : D) (flags aflags : Nat) (w : World F) :
    ∃ f1 : Nat,
      ((isCoherent bits flags = false ∧ isIncoherent bits flags = false) →
        f1 = flags ||| bits.RTC_SCENE_INCOHERENT ∧
        ∀ i : Nat, bits.RTC_SCENE_INCOHERENT.testBit i = false →
          f1.testBit i = flags.testBit i) ∧
      ((isCoherent bits flags = true ∨ isIncoherent bits flags = true) → f1 = flags) ∧
      (isCoherent bits f1 = true ∨ isIncoherent bits f1 = true) ∧
      rtcNewScene bits newScene tid g_device flags aflags w =
        RTCORE_CATCH tid none
          ((newScene g_device f1 aflags).map some,
           { w with calls := w.calls ++ [EngineCall.newScene f1 aflags] }, ()) ∧
      rtcNewScene2 bits newScene tid (some d) flags aflags w =
        RTCORE_CATCH tid none
          ((newScene (some d) f1 aflags).map some,
           { w with calls := w.calls ++ [EngineCall.newScene f1 aflags] }, ()) ∧
      (∀ s : S, newScene g_device f1 aflags = Except.ok s →
        rtcNewScene bits newScene tid g_device flags aflags w =
          (some s, { w with calls := w.calls ++ [EngineCall.newScene f1 aflags] }, ())) ∧
      (∀ s : S, newScene (some d) f1 aflags = Except.ok s →
        rtcNewScene2 bits newScene tid (some d) flags aflags w =
          (some s, { w with calls := w.calls ++ [EngineCall.newScene f1 aflags] }, ())) := by
  have h := defaulted_flags bits flags
  refine ⟨if !isCoherent bits flags && !isIncoherent bits flags then
      flags ||| bits.RTC_SCENE_INCOHERENT else flags, ?_, h.2.1, h.2.2, rfl, rfl, ?_, ?_⟩
  · intro hn
    refine ⟨h.1 hn, ?_⟩
    intro i hi
    rw [h.1 hn, Nat.testBit_or, hi, Bool.or_false]
  · intro s hs
    simp only [rtcNewScene, hs, Except.map, RTCORE_CATCH]
  · intro s hs
    simp only [rtcNewScene2, hs, Except.map, RTCORE_CATCH]

theorem rtcNewScene_default_incoherent_witness :
    (rtcNewScene exampleBits exampleScene 0 none 1 0 (World.init Int)).1 = some (1025, 0) ∧
    (rtcNewScene2 exampleBits exampleScene 0 (some ()) 513 7 (World.init Int)).1
      = some (513, 7) := by
  obtain ⟨f1, h1, _, _, _, _, h6, _⟩ :=
    rtcNewScene_default_incoherent exampleBits exampleScene 0 none () 1 0 (World.init Int)
  obtain ⟨f2, _, k2, _, _, _, _, k7⟩ :=
    rtcNewScene_default_incoherent exampleBits exampleScene 0 none () 513 7 (World.init Int)
  have hf1 : f1 = 1025 := (h1 ⟨by decide, by decide⟩).1
  have hf2 : f2 = 513 := k2 (Or.inl (by decide))
  subst hf1
  subst hf2
  exact ⟨by rw [h6 (1025, 0) rfl], by rw [k7 (513, 7) rfl]⟩

/-! ## C17: reads of the transform array -/

theorem readVec3fa_of_lt {F : Type} (l : List F) (pad : F) (i j k : Nat)
    (hi : i < l.length) (hj : j < l.length) (hk : k < l.length) :
    readVec3fa l i j k = some ⟨arrayOf l pad i, arrayOf l pad j, arrayOf l pad k⟩ := by
  simp [readVec3fa, arrayOf, List.getD_eq_getElem?_getD, List.getElem?_eq_getElem, hi, hj, hk]

theorem readVec3fa_none {F : Type} (l : List F) (i j k : Nat)
    (h : l.length ≤ i ∨ l.length ≤ j ∨ l.length ≤ k) : readVec3fa l i j k = none := by
  unfold readVec3fa
  rcases h with h | h | h
  · rw [List.getElem?_eq_none h]
  · rw [List.getElem?_eq_none h]
    cases l[i]? <;> rfl
  · rw [List.getElem?_eq_none h]
    cases l[i]? <;> cases l[j]? <;> rfl

theorem readAffineSpace3fa_none {F : Type} (vx vy vz : Option (Vec3fa F)) :
    readAffineSpace3fa vx vy vz none = none := by
  cases vx <;> cases vy <;> cases vz <;> rfl

theorem rtcSetTransform_checked_row {S F : Type} (eng : Engine S F) (tid : Nat) (s : S)
    (geomID : Nat) (l : List F) (pad : F) (w : World F) (hid : geomID ≠ unsignedMinusOne)
    (hlen : 12 ≤ l.length) :
    rtcSetTransform_checked eng tid (some s) geomID RTC_MATRIX_ROW_MAJOR (some l) w =
      some (rtcSetTransform eng tid (some s) geomID RTC_MATRIX_ROW_MAJOR
        (some (arrayOf l pad)) w) := by
  simp only [rtcSetTransform_checked, rtcSetTransform_checked_body, rtcSetTransform,
    rtcSetTransform_body, hid, if_false]
  rw [readVec3fa_of_lt l pad 0 4 8 (by omega) (by omega) (by omega),
    readVec3fa_of_lt l pad 1 5 9 (by omega) (by omega) (by omega),
    readVec3fa_of_lt l pad 2 6 10 (by omega) (by omega) (by omega),
    readVec3fa_of_lt l pad 3 7 11 (by omega) (by omega) (by omega)]
  rfl

theorem rtcSetTransform_checked_column {S F : Type} (eng : Engine S F) (tid : Nat) (s : S)
    (geomID : Nat) (l : List F) (pad : F) (w : World F) (hid : geomID ≠ unsignedMinusOne)
    (hlen : 12 ≤ l.length) :
    rtcSetTransform_checked eng tid (some s) geomID RTC_MATRIX_COLUMN_MAJOR (some l) w =
      some (rtcSetTransform eng tid (some s) geomID RTC_MATRIX_COLUMN_MAJOR
        (some (arrayOf l pad)) w) := by
  simp only [rtcSetTransform_checked, rtcSetTransform_checked_body, rtcSetTransform,
    rtcSetTransform_body, hid, if_false]
  rw [readVec3fa_of_lt l pad 0 1 2 (by omega) (by omega) (by omega),
    readVec3fa_of_lt l pad 3 4 5 (by omega) (by omega) (by omega),
    readVec3fa_of_lt l pad 6 7 8 (by omega) (by omega) (by omega),
    readVec3fa_of_lt l pad 9 10 11 (by omega) (by omega) (by omega)]
  rfl

theorem rtcSetTransform_checked_aligned16 {S F : Type} (eng : Engine S F) (tid : Nat) (s : S)
    (geomID : Nat) (l : List F) (pad : F) (w : World F) (hid : geomID ≠ unsignedMinusOne)
    (hlen : 15 ≤ l.length) :
    rtcSetTransform_checked eng tid (some s) geomID RTC_MATRIX_COLUMN_MAJOR_ALIGNED16
        (some l) w =
      some (rtcSetTransform eng tid (some s) geomID RTC_MATRIX_COLUMN_MAJOR_ALIGNED16
        (some (arrayOf l pad)) w) := by
  simp only [rtcSetTransform_checked, rtcSetTransform_checked_body, rtcSetTransform,
    rtcSetTransform_body, hid, if_false]
  rw [readVec3fa_of_lt l pad 0 1 2 (by omega) (by omega) (by omega),
    readVec3fa_of_lt l pad 4 5 6 (by omega) (by omega) (by omega),
    readVec3fa_of_lt l pad 8 9 10 (by omega) (by omega) (by omega),
    readVec3fa_of_lt l pad 12 13 14 (by omega) (by omega) (by omega)]
  rfl

/-- With an array too short for the last subscript of its layout the run
reads outside the array. -/
theorem rtcSetTransform_checked_short {S F : Type} (eng : Engine S F) (tid : Nat) (s : S)
    (geomID : Nat) (l : List F) (w : World F) (hid : geomID ≠ unsignedMinusOne) :
    (l.length < 12 →
      rtcSetTransform_checked eng tid (some s) geomID RTC_MATRIX_ROW_MAJOR (some l) w = none ∧
      rtcSetTransform_checked eng tid (some s) geomID RTC_MATRIX_COLUMN_MAJOR (some l) w
        = none) ∧
    (l.length < 15 →
      rtcSetTransform_checked eng tid (some s) geomID RTC_MATRIX_COLUMN_MAJOR_ALIGNED16
        (some l) w = none) := by
  refine ⟨fun h => ⟨?_, ?_⟩, fun h => ?_⟩
  · simp only [rtcSetTransform_checked, rtcSetTransform_checked_body, hid, if_false]
    rw [readVec3fa_none l 3 7 11 (by omega), readAffineSpace3fa_none]
    rfl
  · simp only [rtcSetTransform_checked, rtcSetTransform_checked_body, hid, if_false]
    rw [readVec3fa_none l 9 10 11 (by omega), readAffineSpace3fa_none]
    rfl
  · simp only [rtcSetTransform_checked, rtcSetTransform_checked_body, hid, if_false]
    rw [readVec3fa_none l 12 13 14 (by omega), readAffineSpace3fa_none]
    rfl

theorem rtcSetTransform_frame {S F : Type} (eng : Engine S F) (tid : Nat) (s : S)
    (geomID : Nat) (a b : Nat → F) (w : World F) (hid : geomID ≠ unsignedMinusOne) :
    ((∀ i, i < 12 → a i = b i) →
      rtcSetTransform eng tid (some s) geomID RTC_MATRIX_ROW_MAJOR (some a) w =
        rtcSetTransform eng tid (some s) geomID RTC_MATRIX_ROW_MAJOR (some b) w ∧
      rtcSetTransform eng tid (some s) geomID RTC_MATRIX_COLUMN_MAJOR (some a) w =
        rtcSetTransform eng tid (some s) geomID RTC_MATRIX_COLUMN_MAJOR (some b) w) ∧
    ((∀ i, i < 15 → a i = b i) →
      rtcSetTransform eng tid (some s) geomID RTC_MATRIX_COLUMN_MAJOR_ALIGNED16 (some a) w =
        rtcSetTransform eng tid (some s) geomID RTC_MATRIX_COLUMN_MAJOR_ALIGNED16 (some b) w) := by
  refine ⟨fun h => ⟨?_, ?_⟩, fun h => ?_⟩
  · simp only [rtcSetTransform, rtcSetTransform_body, hid, if_false,
      h 0 (by omega), h 1 (by omega), h 2 (by omega), h 3 (by omega), h 4 (by omega),
      h 5 (by omega), h 6 (by omega), h 7 (by omega), h 8 (by omega), h 9 (by omega),
      h 10 (by omega), h 11 (by omega)]
  · simp only [rtcSetTransform, rtcSetTransform_body, hid, if_false,
      h 0 (by omega), h 1 (by omega), h 2 (by omega), h 3 (by omega), h 4 (by omega),
      h 5 (by omega), h 6 (by omega), h 7 (by omega), h 8 (by omega), h 9 (by omega),
      h 10 (by omega), h 11 (by omega)]
  · simp only [rtcSetTransform, rtcSetTransform_body, hid, if_false,
      h 0 (by omega), h 1 (by omega), h 2 (by omega), h 4 (by omega),
      h 5 (by omega), h 6 (by omega), h 8 (by omega), h 9 (by omega),
      h 10 (by omega), h 12 (by omega), h 13 (by omega), h 14 (by omega)]

/-- C17. `rtcSetTransform` reads its array only after validation and only
inside it. Over an array given with its length (a read outside it has no
result): with a null scene, with the geometry ID `-1` or with a null array the
call returns the `RTC_INVALID_ARGUMENT` outcome whatever the array is (also
for an empty one); for the row-major and column-major layouts an array of at
least 12 elements always gives a result, the one of the unbounded model, and
that result depends on the elements at indices 0..11 only; for the
column-major layout with 16-float stride an array of at least 15 elements
always gives a result, which depends on indices within 0..14 only; for an
unrecognised layout every array, also an empty one, gives the
`RTC_INVALID_OPERATION` outcome. -/
theorem rtcSetTransform_reads_in_bounds {S F : Type} (eng : Engine S F) (tid : Nat) (s : S)
    (geomID : Nat) (layout : RTCMatrixType) (xfm : Option (List F)) (l : List F) (pad : F)
    (a b : Nat → F) (w : World F) (hid : geomID ≠ unsignedMinusOne) :
    rtcSetTransform_checked eng tid none geomID layout xfm w =
      some ((),
        { w with
          state := process_error tid RTC_INVALID_ARGUMENT (some "invalid argument") w.state },
        none) ∧
    rtcSetTransform_checked eng tid (some s) unsignedMinusOne layout xfm w =
      some ((),
        { w with
          state := process_error tid RTC_INVALID_ARGUMENT (some "invalid argument") w.state },
        some s) ∧
    rtcSetTransform_checked eng tid (some s) geomID layout none w =
      some ((),
        { w with
          state := process_error tid RTC_INVALID_ARGUMENT (some "invalid argument") w.state },
        some s) ∧
    (12 ≤ l.length →
      rtcSetTransform_checked eng tid (some s) geomID RTC_MATRIX_ROW_MAJOR (some l) w =
        some (rtcSetTransform eng tid (some s) geomID RTC_MATRIX_ROW_MAJOR
          (some (arrayOf l pad)) w) ∧
      rtcSetTransform_checked eng tid (some s) geomID RTC_MATRIX_COLUMN_MAJOR (some l) w =
        some (rtcSetTransform eng tid (some s) geomID RTC_MATRIX_COLUMN_MAJOR
          (some (arrayOf l pad)) w)) ∧
    (15 ≤ l.length →
      rtcSetTransform_checked eng tid (some s) geomID RTC_MATRIX_COLUMN_MAJOR_ALIGNED16
          (some l) w =
        some (rtcSetTransform eng tid (some s) geomID RTC_MATRIX_COLUMN_MAJOR_ALIGNED16
          (some (arrayOf l pad)) w)) ∧
    ((∀ i, i < 12 → a i = b i) →
      rtcSetTransform eng tid (some s) geomID RTC_MATRIX_ROW_MAJOR (some a) w =
        rtcSetTransform eng tid (some s) geomID RTC_MATRIX_ROW_MAJOR (some b) w ∧
      rtcSetTransform eng tid (some s) geomID RTC_MATRIX_COLUMN_MAJOR (some a) w =
        rtcSetTransform eng tid (some s) geomID RTC_MATRIX_COLUMN_MAJOR (some b) w) ∧
    ((∀ i, i < 15 → a i = b i) →
      rtcSetTransform eng tid (some s) geomID RTC_MATRIX_COLUMN_MAJOR_ALIGNED16 (some a) w =
        rtcSetTransform eng tid (some s) geomID RTC_MATRIX_COLUMN_MAJOR_ALIGNED16 (some b) w) ∧
    (∀ raw : Nat,
      rtcSetTransform_checked eng tid (some s) geomID (unrecognised raw) (some l) w =
        some ((),
          { w with
            state := process_error tid RTC_INVALID_OPERATION (some "Unknown matrix type")
                       w.state },
          some s)) := by
  have hf := rtcSetTransform_frame eng tid s geomID a b w hid
  refine ⟨?_, ?_, ?_, ?_, ?_, hf.1, hf.2, ?_⟩
  · simp [rtcSetTransform_checked, rtcSetTransform_checked_body, invalidArgument,
      throw_RTCError, RTCORE_CATCH, faultError]
  · simp [rtcSetTransform_checked, rtcSetTransform_checked_body, invalidArgument,
      throw_RTCError, RTCORE_CATCH, faultError]
  · simp [rtcSetTransform_checked, rtcSetTransform_checked_body, hid, invalidArgument,
      throw_RTCError, RTCORE_CATCH, faultError]
  · intro h
    exact ⟨rtcSetTransform_checked_row eng tid s geomID l pad w hid h,
      rtcSetTransform_checked_column eng tid s geomID l pad w hid h⟩
  · intro h
    exact rtcSetTransform_checked_aligned16 eng tid s geomID l pad w hid h
  · intro raw
    simp [rtcSetTransform_checked, rtcSetTransform_checked_body, hid, throw_RTCError,
      RTCORE_CATCH, faultError]

theorem rtcSetTransform_reads_in_bounds_witness :
    (2 : Nat) ≠ unsignedMinusOne ∧
    rtcSetTransform_checked recordingEngine 0 (some (9, 9, 9)) 2 RTC_MATRIX_ROW_MAJOR
        (some [0, 1, 2, 3, 4, 5, 6, 7, 8, 9, 10, 11]) (World.init Int) =
      some (rtcSetTransform recordingEngine 0 (some (9, 9, 9)) 2 RTC_MATRIX_ROW_MAJOR
        (some (arrayOf [0, 1, 2, 3, 4, 5, 6, 7, 8, 9, 10, 11] 77)) (World.init Int)) ∧
    (rtcSetTransform_checked recordingEngine 0 (some (9, 9, 9)) 2 (unrecognised 3)
        (some []) (World.init Int)).isSome = true ∧
    (rtcSetTransform_checked recordingEngine 0 none 2 RTC_MATRIX_ROW_MAJOR
        (some []) (World.init Int)).isSome = true := by
  have h := rtcSetTransform_reads_in_bounds recordingEngine 0 (9, 9, 9) 2 RTC_MATRIX_ROW_MAJOR
    (some []) [0, 1, 2, 3, 4, 5, 6, 7, 8, 9, 10, 11] 77 (fun i => (i : Int))
    (fun i => (i : Int)) (World.init Int) (by decide)
  have h0 := rtcSetTransform_reads_in_bounds recordingEngine 0 (9, 9, 9) 2 RTC_MATRIX_ROW_MAJOR
    (some []) [] 77 (fun i => (i : Int)) (fun i => (i : Int)) (World.init Int) (by decide)
  refine ⟨by decide, (h.2.2.2.1 (by decide)).1, ?_, ?_⟩
  · rw [h0.2.2.2.2.2.2.2 3]; rfl
  · rw [h0.1]; rfl

end embree
